import Mathlib

/-!
Verification of the fiscal-year core of the ledgerpro-saas backend.

The Lean definitions below are a shallow embedding of the Python source:

* `app/services/fiscal_year_service.py` (`FiscalYearService`):
  `recalculate_cascade`, `_get_opening_balance`, `_calculate_transaction_sums`,
  `validate_year_closing`, `close_financial_year`, `_create_balance_snapshot`,
  `_create_next_year`;
* `app/api/v1/fiscal_years.py`: `create_financial_year` (overlap check);
* `app/api/v1/transactions.py`: `assign_fiscal_year`,
  `validate_new_year_transaction`, `create_transaction`, `update_transaction`
  (including its cascade-recalculation trigger).

Modelling conventions:

* The ORM session is modelled as an explicit `DB` value threaded through every
  operation; SQLAlchemy `query(...).first()` is `List.find?` in row order,
  `order_by` is a stable sort, ORM object identity is row identity by primary
  key.
* `Numeric(15, 2)` amounts are exact fixed-point decimals; they are modelled
  as integers (`Money := Int`, in cents).  The `float(...)` round-trip in the
  audit snapshot is value-preserving for `Numeric(15, 2)` (at most 15
  significant digits survive a binary64 round-trip), so snapshot amounts are
  carried unchanged.
* `uuid4` primary keys are modelled as `Nat` ids; a freshly generated id is
  modelled by `freshYearId` (one larger than every existing year id).
* `datetime.utcnow()` timestamps are an opaque `Nat` clock value passed in by
  the caller (`now`); wall-clock execution time metrics are omitted.
* `dateutil.relativedelta` arithmetic on `datetime.date` is modelled by a
  Gregorian calendar date type with the same `+1 day` / `+1 year` (day
  clamped) / `-1 day` semantics.
-/

namespace LedgerPro

/-- Money amounts: `Numeric(15, 2)` fixed-point values, modelled exactly as
integers (cents).  All balance arithmetic in the service is `Decimal`
arithmetic, which is exact. -/
abbrev Money := Int

/-- Gregorian calendar date, modelling Python `datetime.date`. -/
structure Date where
  year : Int
  month : Int
  day : Int
deriving DecidableEq, Repr

/-- Gregorian leap-year rule. -/
def Date.isLeap (y : Int) : Bool :=
  (y % 4 == 0 && y % 100 != 0) || y % 400 == 0

/-- Number of days in a month. -/
def Date.daysInMonth (y m : Int) : Int :=
  if m == 2 then (if Date.isLeap y then 29 else 28)
  else if m == 4 || m == 6 || m == 9 || m == 11 then 30
  else 31

/-- The following day: `d + relativedelta(days=1)`. -/
def Date.nextDay (d : Date) : Date :=
  if d.day < Date.daysInMonth d.year d.month then ⟨d.year, d.month, d.day + 1⟩
  else if d.month < 12 then ⟨d.year, d.month + 1, 1⟩
  else ⟨d.year + 1, 1, 1⟩

/-- The preceding day: `d - relativedelta(days=1)`. -/
def Date.prevDay (d : Date) : Date :=
  if 1 < d.day then ⟨d.year, d.month, d.day - 1⟩
  else if 1 < d.month then ⟨d.year, d.month - 1, Date.daysInMonth d.year (d.month - 1)⟩
  else ⟨d.year - 1, 12, 31⟩

/-- One calendar year later: `d + relativedelta(years=1)` (Feb 29 clamps to
Feb 28). -/
def Date.addYearClamp (d : Date) : Date :=
  ⟨d.year + 1, d.month, min d.day (Date.daysInMonth (d.year + 1) d.month)⟩

/-- Date comparison `a <= b` (lexicographic on year, month, day). -/
def Date.ble (a b : Date) : Bool :=
  a.year < b.year ||
    (a.year == b.year && (a.month < b.month ||
      (a.month == b.month && a.day ≤ b.day)))

/-- Date comparison `a < b` (lexicographic on year, month, day). -/
def Date.blt (a b : Date) : Bool :=
  a.year < b.year ||
    (a.year == b.year && (a.month < b.month ||
      (a.month == b.month && a.day < b.day)))

/-- `FinancialYearStatus` enum from `app/models/fiscal_year.py`. -/
inductive FinancialYearStatus where
  | OPEN
  | CLOSED
deriving DecidableEq, Repr

/-- Boolean test for the `CLOSED` status. -/
def FinancialYearStatus.isClosed : FinancialYearStatus → Bool
  | .CLOSED => true
  | .OPEN => false

/-- `TransactionType` enum from `app/models/single_entry.py`. -/
inductive TransactionType where
  | INCOME
  | EXPENSE
deriving DecidableEq, Repr

/-- `YearClosingAction` enum from `app/models/fiscal_year.py`. -/
inductive YearClosingAction where
  | CLOSE
  | REOPEN
  | RECALCULATE
deriving DecidableEq, Repr

/-- `FinancialYear` row (`financial_years` table).  The `created_at` /
`updated_at` audit columns and the `has_uncategorized_transactions` cache,
which no modelled operation reads, are omitted. -/
structure FinancialYear where
  id : Nat
  tenant_id : Nat
  year_name : String
  start_date : Date
  end_date : Date
  status : FinancialYearStatus
  is_current : Bool
  closed_at : Option Nat := none
  closed_by : Option Nat := none
  total_transactions_count : Nat := 0
deriving DecidableEq, Repr

/-- `MoneyAccount` row (`money_accounts` table), restricted to the columns
the fiscal-year core reads. -/
structure MoneyAccount where
  id : Nat
  tenant_id : Nat
  name : String
  opening_balance : Money
  current_balance : Money
deriving DecidableEq, Repr

/-- `Category` row (`categories` table), restricted to the columns the
transaction endpoints read. -/
structure Category where
  id : Nat
  tenant_id : Nat
  transaction_type : TransactionType
deriving DecidableEq, Repr

/-- `Transaction` row (`transactions` table), restricted to the columns the
fiscal-year core reads. -/
structure Transaction where
  id : Nat
  tenant_id : Nat
  account_id : Nat
  category_id : Option Nat
  fiscal_year_id : Option Nat
  transaction_type : TransactionType
  amount : Money
  transaction_date : Date
deriving DecidableEq, Repr

/-- `AccountYearBalance` row (`account_year_balances` table).  The surrogate
`id`, `snapshot_date`, `created_at`, `updated_at` columns, which no modelled
operation reads, are omitted. -/
structure AccountYearBalance where
  tenant_id : Nat
  financial_year_id : Nat
  account_id : Nat
  opening_balance : Money
  closing_balance : Money
  total_income : Money
  total_expense : Money
  transaction_count : Nat
  is_final : Bool
  last_recalculated_at : Option Nat
  recalculation_count : Nat
deriving DecidableEq, Repr

/-- One entry of the JSONB balance snapshot built by
`_create_balance_snapshot` and by the `accounts_summary` part of
`validate_year_closing` (both build the same record shape). -/
structure SnapshotEntry where
  account_id : Nat
  account_name : String
  opening_balance : Money
  closing_balance : Money
  total_income : Money
  total_expense : Money
  transaction_count : Nat
deriving DecidableEq, Repr

/-- JSONB balance snapshot stored on a `YearClosingAudit` row
(`snapshot_date` is omitted with the other timestamps). -/
structure BalanceSnapshot where
  accounts : List SnapshotEntry
  total_accounts : Nat
deriving DecidableEq, Repr

/-- `YearClosingAudit` row (`year_closing_audit` table). -/
structure YearClosingAudit where
  tenant_id : Nat
  financial_year_id : Nat
  action : YearClosingAction
  balance_snapshot : BalanceSnapshot
  performed_by : Nat
  performed_at : Nat
  reason : String
  total_accounts : Nat
  total_transactions : Nat
deriving DecidableEq, Repr

/-- The datastore: one relational table per model, in row order. -/
structure DB where
  years : List FinancialYear
  accounts : List MoneyAccount
  categories : List Category
  transactions : List Transaction
  balances : List AccountYearBalance
  audits : List YearClosingAudit
deriving DecidableEq, Repr

/-- `db.query(FinancialYear).filter(id == ..., tenant_id == ...).first()`. -/
def getYear (db : DB) (tenant year_id : Nat) : Option FinancialYear :=
  db.years.find? (fun y => y.id == year_id && y.tenant_id == tenant)

/-- `db.query(AccountYearBalance).filter(financial_year_id == ...,
account_id == ...).first()`. -/
def lookupBalance (bs : List AccountYearBalance) (year_id account_id : Nat) :
    Option AccountYearBalance :=
  bs.find? (fun b => b.financial_year_id == year_id && b.account_id == account_id)

/-- Chain ordering predicate used for `order_by(FinancialYear.start_date)`. -/
def startLE (a b : FinancialYear) : Prop :=
  Date.ble a.start_date b.start_date = true

instance : DecidableRel startLE := fun a b => by
  unfold startLE; infer_instance

/-- `order_by(FinancialYear.start_date)`: stable ascending sort by start
date (rows equal on the sort key keep their table order). -/
def sortByStartDate (ys : List FinancialYear) : List FinancialYear :=
  List.insertionSort startLE ys

/-- `RecalculationResult` schema (wall-clock `execution_time_ms` omitted). -/
structure RecalculationResult where
  success : Bool
  affected_years : List Nat
  affected_accounts : List Nat
  recalculated_balances : Nat
  warnings : List String
deriving DecidableEq, Repr

/-- `FiscalYearService._calculate_transaction_sums`: one aggregate pass over
the transactions of one account in one year, returning
`(income_sum, expense_sum, transaction_count)`. -/
def calculate_transaction_sums (txns : List Transaction) (year_id account_id : Nat) :
    Money × Money × Nat :=
  (txns.filter (fun t => t.fiscal_year_id == some year_id && t.account_id == account_id)).foldl
    (fun acc t =>
      match t.transaction_type with
      | .INCOME => (acc.1 + t.amount, acc.2.1, acc.2.2 + 1)
      | .EXPENSE => (acc.1, acc.2.1 + t.amount, acc.2.2 + 1))
    (0, 0, 0)

/-- The `for idx, year in enumerate(all_years)` scan of
`FiscalYearService._get_opening_balance`: the element standing right before
the first occurrence (at index `> 0`) of `current_id` in the list. -/
def findPreviousYear (current_id : Nat) : List FinancialYear → Option FinancialYear
  | [] => none
  | [_] => none
  | a :: b :: rest =>
    if b.id == current_id then some a else findPreviousYear current_id (b :: rest)

/-- `FiscalYearService._get_opening_balance`: previous year's stored closing
balance, falling back to the account's base opening balance when there is no
previous year in `all_years` or no stored balance row for it.  Note the
source passes the chain being recalculated (not the full tenant sequence) as
`all_years`. -/
def get_opening_balance (bs : List AccountYearBalance) (current_year : FinancialYear)
    (account : MoneyAccount) (all_years : List FinancialYear) : Money :=
  match findPreviousYear current_year.id all_years with
  | some previous_year =>
    match lookupBalance bs previous_year.id account.id with
    | some prev_balance => prev_balance.closing_balance
    | none => account.opening_balance
  | none => account.opening_balance

/-- The upsert of one `AccountYearBalance` row inside the cascade loop:
update the first matching row in place (bumping the recalculation counter),
or append a freshly created row (`is_final` set from the year status,
counter 1). -/
def writeBalance (tenant : Nat) (year : FinancialYear) (account_id : Nat)
    (opening closing income expense : Money) (cnt : Nat) (now : Nat) :
    List AccountYearBalance → List AccountYearBalance
  | [] =>
    [{ tenant_id := tenant, financial_year_id := year.id, account_id := account_id,
       opening_balance := opening, closing_balance := closing,
       total_income := income, total_expense := expense, transaction_count := cnt,
       is_final := year.status.isClosed, last_recalculated_at := some now,
       recalculation_count := 1 }]
  | b :: rest =>
    if b.financial_year_id == year.id && b.account_id == account_id then
      { b with opening_balance := opening, closing_balance := closing,
               total_income := income, total_expense := expense,
               transaction_count := cnt, last_recalculated_at := some now,
               recalculation_count := b.recalculation_count + 1 } :: rest
    else
      b :: writeBalance tenant year account_id opening closing income expense cnt now rest

/-- One iteration of the inner (per-account) cascade loop: compute the
opening balance, the transaction sums and the closing balance for
`(year, account)` and upsert the row. -/
def processYearAccount (txns : List Transaction) (tenant : Nat)
    (all_years : List FinancialYear) (year : FinancialYear) (account : MoneyAccount)
    (now : Nat) (bs : List AccountYearBalance) : List AccountYearBalance :=
  let opening := get_opening_balance bs year account all_years
  let sums := calculate_transaction_sums txns year.id account.id
  let closing := opening + sums.1 - sums.2.1
  writeBalance tenant year account.id opening closing sums.1 sums.2.1 sums.2.2 now bs

/-- The nested `for year in years: for account in accounts:` loops of
`recalculate_cascade`. -/
def processChain (txns : List Transaction) (tenant : Nat)
    (years : List FinancialYear) (accounts : List MoneyAccount) (now : Nat)
    (bs : List AccountYearBalance) : List AccountYearBalance :=
  years.foldl
    (fun bs y => accounts.foldl (fun bs a => processYearAccount txns tenant years y a now bs) bs)
    bs

/-- The forward chain loaded by `recalculate_cascade` step 2: all tenant
years starting no earlier than the starting year, ascending by start date. -/
def chainOf (db : DB) (tenant : Nat) (starting_year : FinancialYear) :
    List FinancialYear :=
  sortByStartDate (db.years.filter
    (fun y => y.tenant_id == tenant && Date.ble starting_year.start_date y.start_date))

/-- The account set resolved by `recalculate_cascade` step 3: the given
accounts, or all tenant accounts when the argument is `None` or empty
(Python truthiness of the list). -/
def accountsFor (db : DB) (tenant : Nat) (modified_account_ids : Option (List Nat)) :
    List MoneyAccount :=
  match modified_account_ids with
  | some ids =>
    if ids.isEmpty then db.accounts.filter (fun a => a.tenant_id == tenant)
    else db.accounts.filter (fun a => a.tenant_id == tenant && ids.contains a.id)
  | none => db.accounts.filter (fun a => a.tenant_id == tenant)

/-- The post-loop step of `recalculate_cascade`: set each processed
account's live current balance to its closing balance in the last chain
year (ORM object identity modelled as an update of the rows whose id was
processed). -/
def refreshCurrentBalance (bs : List AccountYearBalance)
    (years : List FinancialYear) (accounts : List MoneyAccount)
    (a : MoneyAccount) : MoneyAccount :=
  if accounts.any (fun b => b.id == a.id) then
    match years.getLast? with
    | some most_recent_year =>
      match lookupBalance bs most_recent_year.id a.id with
      | some row => { a with current_balance := row.closing_balance }
      | none => a
    | none => a
  else a

/-- `FiscalYearService.recalculate_cascade`: resolve the starting year, load
the forward chain and the account set, recompute every `(year, account)`
balance in chronological order, refresh each processed account's live
current balance from the last chain year, and commit.  Returns the updated
datastore and the `RecalculationResult`. -/
def recalculate_cascade (db : DB) (tenant : Nat) (now : Nat)
    (starting_year_id : Nat) (modified_account_ids : Option (List Nat)) :
    DB × RecalculationResult :=
  match getYear db tenant starting_year_id with
  | none =>
    (db, { success := false, affected_years := [], affected_accounts := [],
           recalculated_balances := 0,
           warnings := ["Starting financial year not found"] })
  | some starting_year =>
    let years := chainOf db tenant starting_year
    if years.isEmpty then
      (db, { success := true, affected_years := [], affected_accounts := [],
             recalculated_balances := 0,
             warnings := ["No years found to recalculate"] })
    else
      let accounts := accountsFor db tenant modified_account_ids
      let warnings := if accounts.isEmpty then ["No accounts found to recalculate"] else []
      let bs := processChain db.transactions tenant years accounts now db.balances
      let accountsUpd := db.accounts.map (refreshCurrentBalance bs years accounts)
      ({ db with balances := bs, accounts := accountsUpd },
       { success := true,
         affected_years := years.map (·.id),
         affected_accounts := (accounts.map (·.id)).eraseDups,
         recalculated_balances := years.length * accounts.length,
         warnings := warnings })

/-- `YearClosingValidation` schema. -/
structure YearClosingValidation where
  can_close : Bool
  uncategorized_transactions : Nat
  total_transactions : Nat
  accounts_summary : List SnapshotEntry
  warnings : List String
  errors : List String
deriving DecidableEq, Repr

/-- `YearClosingResponse` schema (`closed_at` timestamp omitted with the
other timestamps). -/
structure YearClosingResponse where
  success : Bool
  message : String
  financial_year_id : Nat
  next_year_id : Option Nat
  balance_snapshots_created : Nat
deriving DecidableEq, Repr

/-- The per-account summary built both by `validate_year_closing`
(`accounts_summary`) and by `_create_balance_snapshot` (`accounts`): the
year's balance rows joined (by a per-row `first()` lookup) to account names;
rows whose `MoneyAccount` is missing are skipped. -/
def accountsSummary (db : DB) (year_id : Nat) : List SnapshotEntry :=
  (db.balances.filter (fun b => b.financial_year_id == year_id)).filterMap (fun b =>
    match db.accounts.find? (fun a => a.id == b.account_id) with
    | some account =>
      some { account_id := b.account_id, account_name := account.name,
             opening_balance := b.opening_balance, closing_balance := b.closing_balance,
             total_income := b.total_income, total_expense := b.total_expense,
             transaction_count := b.transaction_count }
    | none => none)

/-- `FiscalYearService.validate_year_closing`: year must exist, must not be
already closed, and must have no uncategorized transactions; empty years
produce a warning; `can_close` iff no error was recorded. -/
def validate_year_closing (db : DB) (tenant year_id : Nat) : YearClosingValidation :=
  match getYear db tenant year_id with
  | none =>
    { can_close := false, uncategorized_transactions := 0, total_transactions := 0,
      accounts_summary := [], warnings := [], errors := ["Financial year not found"] }
  | some year =>
    let total_transactions :=
      (db.transactions.filter (fun t => t.fiscal_year_id == some year_id)).length
    let uncategorized_count :=
      (db.transactions.filter
        (fun t => t.fiscal_year_id == some year_id && t.category_id == none)).length
    let errors :=
      (if year.status.isClosed then ["Financial year is already closed"] else []) ++
      (if 0 < uncategorized_count then
        ["transactions are not categorized. All transactions must have categories before closing the year."]
       else [])
    let warnings :=
      if total_transactions == 0 then ["This financial year has no transactions"] else []
    { can_close := errors.isEmpty, uncategorized_transactions := uncategorized_count,
      total_transactions := total_transactions,
      accounts_summary := accountsSummary db year_id,
      warnings := warnings, errors := errors }

/-- `FiscalYearService._create_balance_snapshot`: the JSONB snapshot of all
the year's balance rows (amounts carried exactly, see the module header
about the `float` round-trip). -/
def create_balance_snapshot (db : DB) (year_id : Nat) : BalanceSnapshot :=
  let accounts := accountsSummary db year_id
  { accounts := accounts, total_accounts := accounts.length }

/-- A fresh `FinancialYear` primary key (models `uuid4`): one larger than
every existing year id. -/
def freshYearId (db : DB) : Nat :=
  db.years.foldl (fun m y => max m y.id) 0 + 1

/-- One seeded opening balance row of the next year: opening carried from
the snapshot's closing balance, equal closing, zeroed sums and counters,
not final. -/
def seedBalance (tenant nid : Nat) (s : SnapshotEntry) : AccountYearBalance :=
  { tenant_id := tenant, financial_year_id := nid, account_id := s.account_id,
    opening_balance := s.closing_balance, closing_balance := s.closing_balance,
    total_income := 0, total_expense := 0, transaction_count := 0,
    is_final := false, last_recalculated_at := none, recalculation_count := 0 }

/-- The next year's record created by `_create_next_year`: the day after the
closed year's end through one year minus a day later, OPEN and current. -/
def nextYearRecord (db : DB) (tenant : Nat) (current_year : FinancialYear) :
    FinancialYear :=
  let next_start := Date.nextDay current_year.end_date
  let next_end := Date.prevDay (Date.addYearClamp next_start)
  let sy := next_start.year
  let ey := next_end.year
  let year_name := if sy != ey then s!"FY {sy}-{ey}" else s!"FY {sy}"
  { id := freshYearId db, tenant_id := tenant, year_name := year_name,
    start_date := next_start, end_date := next_end,
    status := .OPEN, is_current := true }

/-- `FiscalYearService._create_next_year`: create the following year (the
day after the closed year's end through one year minus a day later), OPEN
and current, and seed one `AccountYearBalance` per snapshot account with
`opening_balance = closing_balance` carried over, zeroed sums and
`is_final = False`.  Returns the updated datastore and the new year's id. -/
def create_next_year_op (db : DB) (tenant : Nat) (current_year : FinancialYear)
    (balance_snapshot : BalanceSnapshot) : DB × Nat :=
  let next_year := nextYearRecord db tenant current_year
  let seeded := balance_snapshot.accounts.map (seedBalance tenant next_year.id)
  ({ db with years := db.years ++ [next_year], balances := db.balances ++ seeded },
   next_year.id)

/-- Step 3 of the closing workflow: mark every balance row of the year
`is_final` (the source query filters on the year id only). -/
def freezeBalances (db : DB) (year_id : Nat) : DB :=
  { db with balances := db.balances.map (fun (b : AccountYearBalance) =>
      if b.financial_year_id == year_id then { b with is_final := true } else b) }

/-- Step 4 of the closing workflow: set the year's status to CLOSED, stamp
the closing metadata and clear `is_current` (ORM object identity modelled as
an update of the row with that primary key). -/
def markYearClosed (db : DB) (yid user_id now : Nat) : DB :=
  { db with years := db.years.map (fun (y : FinancialYear) =>
      if y.id == yid then
        { y with status := .CLOSED, closed_at := some now,
                 closed_by := some user_id, is_current := false }
      else y) }

/-- Failure points inside `close_financial_year` after validation: an
exception raised while freezing the balances (step 3/4), while writing the
audit record (step 5), or while creating the next year (step 6).  The
`except` handler answers any of these with `self.db.rollback()`, which
restores the session to its last commit point. -/
inductive CloseStep where
  | freeze
  | audit
  | nextYear
deriving DecidableEq, Repr

/-- `FiscalYearService.close_financial_year`: validate, recalculate the
cascade (which commits on its own), freeze the year's balance rows, set the
year CLOSED, write the audit record, optionally create the next year, then
commit.  `failAt` injects an exception at the named step; the handler rolls
the session back to the last commit point, which is the state the embedded
cascade committed.  `validate_categories` is accepted but never read by the
source. -/
def close_financial_year (db : DB) (tenant year_id user_id : Nat) (now : Nat)
    (validate_categories create_next_year : Bool) (failAt : Option CloseStep) :
    DB × YearClosingResponse :=
  let validation := validate_year_closing db tenant year_id
  if !validation.can_close then
    (db, { success := false, message := "Cannot close year",
           financial_year_id := year_id, next_year_id := none,
           balance_snapshots_created := 0 })
  else
    match getYear db tenant year_id with
    | none =>
      (db, { success := false, message := "Financial year not found",
             financial_year_id := year_id, next_year_id := none,
             balance_snapshots_created := 0 })
    | some year =>
      let recalc := recalculate_cascade db tenant now year_id none
      let db1 := recalc.1
      if !recalc.2.success then
        (db1, { success := false, message := "Recalculation failed",
                financial_year_id := year_id, next_year_id := none,
                balance_snapshots_created := 0 })
      else if failAt == some .freeze then
        (db1, { success := false, message := "Error closing year",
                financial_year_id := year_id, next_year_id := none,
                balance_snapshots_created := 0 })
      else
        let db2 := freezeBalances db1 year_id
        let db3 := markYearClosed db2 year.id user_id now
        if failAt == some .audit then
          (db1, { success := false, message := "Error closing year",
                  financial_year_id := year_id, next_year_id := none,
                  balance_snapshots_created := 0 })
        else
          let balance_snapshot := create_balance_snapshot db3 year_id
          let auditRow : YearClosingAudit :=
            { tenant_id := tenant, financial_year_id := year_id,
              action := .CLOSE, balance_snapshot := balance_snapshot,
              performed_by := user_id, performed_at := now,
              reason := "Year closing",
              total_accounts := balance_snapshot.accounts.length,
              total_transactions := validation.total_transactions }
          let db4 := { db3 with audits := db3.audits ++ [auditRow] }
          if create_next_year then
            if failAt == some .nextYear then
              (db1, { success := false, message := "Error closing year",
                      financial_year_id := year_id, next_year_id := none,
                      balance_snapshots_created := 0 })
            else
              let r := create_next_year_op db4 tenant year balance_snapshot
              (r.1, { success := true, message := "Financial year closed successfully",
                      financial_year_id := year_id, next_year_id := some r.2,
                      balance_snapshots_created := balance_snapshot.accounts.length })
          else
            (db4, { success := true, message := "Financial year closed successfully",
                    financial_year_id := year_id, next_year_id := none,
                    balance_snapshots_created := balance_snapshot.accounts.length })

/-- Errors raised by the API endpoints (`HTTPException`s, identified by
their raise site). -/
inductive ApiError where
  | accountNotFound
  | categoryNotFound
  | categoryTypeMismatch
  | transactionNotFound
  | permissionDenied
  | sequenceViolation
  | dateRangeOverlap
deriving DecidableEq, Repr

/-- `update_account_balance` from `app/api/v1/transactions.py`: apply
(`is_new = True`) or reverse (`is_new = False`) a transaction's effect on an
account's live balance. -/
def update_account_balance (account : MoneyAccount) (amount : Money)
    (transaction_type : TransactionType) (is_new : Bool) : MoneyAccount :=
  if is_new then
    match transaction_type with
    | .INCOME => { account with current_balance := account.current_balance + amount }
    | .EXPENSE => { account with current_balance := account.current_balance - amount }
  else
    match transaction_type with
    | .INCOME => { account with current_balance := account.current_balance - amount }
    | .EXPENSE => { account with current_balance := account.current_balance + amount }

/-- `assign_fiscal_year`: the first tenant year whose date range contains
the transaction date, if any. -/
def assign_fiscal_year (db : DB) (tenant : Nat) (transaction_date : Date) : Option Nat :=
  (db.years.find? (fun y =>
    y.tenant_id == tenant &&
    Date.ble y.start_date transaction_date &&
    Date.ble transaction_date y.end_date)).map (·.id)

/-- The `order_by(end_date.desc()).first()` query of
`validate_new_year_transaction`: among the tenant years ending strictly
before `cur.start_date`, the one with the greatest end date (first in table
order on ties). -/
def previousYearByEnd (db : DB) (tenant : Nat) (cur : FinancialYear) :
    Option FinancialYear :=
  (db.years.filter (fun y =>
    y.tenant_id == tenant && Date.blt y.end_date cur.start_date)).foldl
    (fun best y =>
      match best with
      | none => some y
      | some b => if Date.blt b.end_date y.end_date then some y else best)
    none

/-- `validate_new_year_transaction`: posting into a year is allowed unless
the latest tenant year ending before it exists and is not CLOSED.  Returns
`true` when the transaction may be posted.  Note the year lookup filters by
id only (no tenant filter), as in the source. -/
def validate_new_year_transaction (db : DB) (tenant : Nat)
    (fiscal_year_id : Option Nat) : Bool :=
  match fiscal_year_id with
  | none => true
  | some fid =>
    match db.years.find? (fun y => y.id == fid) with
    | none => true
    | some current_year =>
      match previousYearByEnd db tenant current_year with
      | none => true
      | some previous_year => previous_year.status.isClosed

/-- `TransactionCreate` payload fields read by the embedded endpoint. -/
structure TransactionCreate where
  account_id : Nat
  category_id : Option Nat
  transaction_type : TransactionType
  amount : Money
  transaction_date : Date
deriving DecidableEq, Repr

/-- `create_transaction` endpoint (`POST /transactions`): verify the account
and the optional category, auto-assign the fiscal year from the date,
enforce the previous-year-closed rule, then insert the transaction and apply
it to the account's live balance.  The fresh `uuid4` transaction id is
passed in as `txn_id`. -/
def create_transaction (db : DB) (tenant user txn_id : Nat)
    (data : TransactionCreate) : Except ApiError (DB × Transaction) :=
  match db.accounts.find? (fun a => a.id == data.account_id && a.tenant_id == tenant) with
  | none => .error .accountNotFound
  | some account =>
    let categoryCheck : Except ApiError Unit :=
      match data.category_id with
      | none => .ok ()
      | some cid =>
        match db.categories.find? (fun c => c.id == cid && c.tenant_id == tenant) with
        | none => .error .categoryNotFound
        | some category =>
          if category.transaction_type == data.transaction_type then .ok ()
          else .error .categoryTypeMismatch
    match categoryCheck with
    | .error e => .error e
    | .ok _ =>
      let fiscal_year_id := assign_fiscal_year db tenant data.transaction_date
      if !validate_new_year_transaction db tenant fiscal_year_id then
        .error .sequenceViolation
      else
        let new_transaction : Transaction :=
          { id := txn_id, tenant_id := tenant, account_id := data.account_id,
            category_id := data.category_id, fiscal_year_id := fiscal_year_id,
            transaction_type := data.transaction_type, amount := data.amount,
            transaction_date := data.transaction_date }
        let accountsUpd := db.accounts.map (fun a =>
          if a.id == account.id then
            update_account_balance a data.amount data.transaction_type true
          else a)
        .ok ({ db with accounts := accountsUpd,
                       transactions := db.transactions ++ [new_transaction] },
             new_transaction)

/-- `TransactionUpdate` payload: `exclude_unset` semantics, every field
optional. -/
structure TransactionUpdate where
  account_id : Option Nat := none
  category_id : Option Nat := none
  transaction_type : Option TransactionType := none
  amount : Option Money := none
  transaction_date : Option Date := none
deriving DecidableEq, Repr

/-- The `setattr` loop of `update_transaction`: apply every provided field. -/
def applyUpdate (t : Transaction) (u : TransactionUpdate) : Transaction :=
  { t with
    account_id := u.account_id.getD t.account_id,
    category_id := match u.category_id with | some c => some c | none => t.category_id,
    transaction_type := u.transaction_type.getD t.transaction_type,
    amount := u.amount.getD t.amount,
    transaction_date := u.transaction_date.getD t.transaction_date }

/-- The cascade trigger at the end of `update_transaction` (lines 463-483):
when the fiscal year changed, recalculate from the OLD year; otherwise, when
the (unchanged) year is CLOSED, recalculate from it; in both cases only the
transaction's (new) account is passed.  Returns the `recalculate_cascade`
arguments, or `none` when no recalculation is triggered. -/
def updateRecalcTarget (db : DB) (old_fiscal_year_id : Option Nat)
    (txn : Transaction) : Option (Nat × List Nat) :=
  match old_fiscal_year_id with
  | some old =>
    if old_fiscal_year_id != txn.fiscal_year_id then some (old, [txn.account_id])
    else
      match txn.fiscal_year_id with
      | some fid =>
        match db.years.find? (fun y => y.id == fid) with
        | some fy => if fy.status.isClosed then some (fid, [txn.account_id]) else none
        | none => none
      | none => none
  | none =>
    match txn.fiscal_year_id with
    | some fid =>
      match db.years.find? (fun y => y.id == fid) with
      | some fy => if fy.status.isClosed then some (fid, [txn.account_id]) else none
      | none => none
    | none => none

/-- `update_transaction` endpoint (`PUT /transactions/{id}`): look the
transaction up, enforce the closed-year admin rule, reverse the old amount
from the old account, apply the payload, re-assign the fiscal year and
re-validate the sequence rule when the date changed, apply the new amount to
the new account, commit, then trigger the cascade recalculation according to
`updateRecalcTarget`.  A missing old-account row would crash the endpoint
and is modelled as `accountNotFound`. -/
def update_transaction (db : DB) (tenant : Nat) (now : Nat)
    (transaction_id : Nat) (data : TransactionUpdate) (isAdmin : Bool) :
    Except ApiError DB :=
  match db.transactions.find? (fun (t : Transaction) => t.id == transaction_id && t.tenant_id == tenant) with
  | none => .error .transactionNotFound
  | some txn =>
    let closedYearBlocked :=
      match txn.fiscal_year_id with
      | none => false
      | some fid =>
        match db.years.find? (fun (y : FinancialYear) => y.id == fid) with
        | none => false
        | some fy => fy.status.isClosed && !isAdmin
    if closedYearBlocked then .error .permissionDenied
    else
      let old_fiscal_year_id := txn.fiscal_year_id
      match db.accounts.find? (fun (a : MoneyAccount) => a.id == txn.account_id) with
      | none => .error .accountNotFound
      | some _ =>
        let newAccountCheck : Except ApiError Unit :=
          match data.account_id with
          | none => .ok ()
          | some aid =>
            if (db.accounts.find? (fun (a : MoneyAccount) => a.id == aid && a.tenant_id == tenant)).isSome
            then .ok () else .error .accountNotFound
        match newAccountCheck with
        | .error e => .error e
        | .ok _ =>
          let categoryCheck : Except ApiError Unit :=
            match data.category_id with
            | none => .ok ()
            | some cid =>
              if (db.categories.find? (fun (c : Category) => c.id == cid && c.tenant_id == tenant)).isSome
              then .ok () else .error .categoryNotFound
          match categoryCheck with
          | .error e => .error e
          | .ok _ =>
            let accounts1 := db.accounts.map (fun (a : MoneyAccount) =>
              if a.id == txn.account_id then
                update_account_balance a txn.amount txn.transaction_type false
              else a)
            let txn1 := applyUpdate txn data
            let txn2 :=
              match data.transaction_date with
              | some _ =>
                { txn1 with fiscal_year_id :=
                    assign_fiscal_year db tenant txn1.transaction_date }
              | none => txn1
            let sequenceOk :=
              match data.transaction_date with
              | some _ => validate_new_year_transaction db tenant txn2.fiscal_year_id
              | none => true
            if !sequenceOk then .error .sequenceViolation
            else
              let accounts2 := accounts1.map (fun (a : MoneyAccount) =>
                if a.id == txn2.account_id then
                  update_account_balance a txn2.amount txn2.transaction_type true
                else a)
              let db1 := { db with
                accounts := accounts2,
                transactions := db.transactions.map (fun (t : Transaction) =>
                  if t.id == transaction_id && t.tenant_id == tenant then txn2 else t) }
              match updateRecalcTarget db1 old_fiscal_year_id txn2 with
              | some target =>
                .ok (recalculate_cascade db1 tenant now target.1 (some target.2)).1
              | none => .ok db1

/-- `create_financial_year` endpoint (`POST /fiscal-years`): reject the
request when an existing tenant year contains the new start date or the new
end date; otherwise clear other `is_current` flags if requested and insert
the new year OPEN.  The fresh `uuid4` id is modelled by `freshYearId`. -/
def create_financial_year (db : DB) (tenant creator : Nat) (year_name : String)
    (start_date end_date : Date) (is_current : Bool) :
    Except ApiError (DB × FinancialYear) :=
  let overlap := db.years.find? (fun y =>
    y.tenant_id == tenant &&
    ((Date.ble y.start_date start_date && Date.ble start_date y.end_date) ||
     (Date.ble y.start_date end_date && Date.ble end_date y.end_date)))
  match overlap with
  | some _ => .error .dateRangeOverlap
  | none =>
    let years1 :=
      if is_current then
        db.years.map (fun y =>
          if y.tenant_id == tenant && y.is_current then { y with is_current := false }
          else y)
      else db.years
    let new_year : FinancialYear :=
      { id := freshYearId db, tenant_id := tenant, year_name := year_name,
        start_date := start_date, end_date := end_date,
        status := .OPEN, is_current := is_current }
    .ok ({ db with years := years1 ++ [new_year] }, new_year)

/-! Concrete fixtures used by the evaluation theorems and witnesses. -/

/-- Fixture: calendar year 2024 as a closed period (id 1). -/
def yr2024closed : FinancialYear :=
  { id := 1, tenant_id := 1, year_name := "FY 2024",
    start_date := ⟨2024, 1, 1⟩, end_date := ⟨2024, 12, 31⟩,
    status := .CLOSED, is_current := false }

/-- Fixture: calendar year 2025 as an open, current period (id 2). -/
def yr2025open : FinancialYear :=
  { id := 2, tenant_id := 1, year_name := "FY 2025",
    start_date := ⟨2025, 1, 1⟩, end_date := ⟨2025, 12, 31⟩,
    status := .OPEN, is_current := true }

/-- Fixture: a cash account (id 10) with base opening balance 0. -/
def acctCash : MoneyAccount :=
  { id := 10, tenant_id := 1, name := "Cash", opening_balance := 0,
    current_balance := 100 }

/-- Fixture: an income category (id 50). -/
def catSales : Category := { id := 50, tenant_id := 1, transaction_type := .INCOME }

/-- Fixture: a categorized income transaction of 100 in the 2024 period. -/
def txnIncome2024 : Transaction :=
  { id := 100, tenant_id := 1, account_id := 10, category_id := some 50,
    fiscal_year_id := some 1, transaction_type := .INCOME, amount := 100,
    transaction_date := ⟨2024, 6, 1⟩ }

/-- Fixture: the stored balance row of the cash account for the closed 2024
period (closing balance 100). -/
def bal2024cash : AccountYearBalance :=
  { tenant_id := 1, financial_year_id := 1, account_id := 10,
    opening_balance := 0, closing_balance := 100, total_income := 100,
    total_expense := 0, transaction_count := 1, is_final := true,
    last_recalculated_at := some 1, recalculation_count := 1 }

/-- Fixture datastore for the opening-balance evaluation: closed 2024 with a
recorded closing balance of 100, open 2025 with no rows yet. -/
def dbTwoYears : DB :=
  { years := [yr2024closed, yr2025open], accounts := [acctCash],
    categories := [catSales], transactions := [txnIncome2024],
    balances := [bal2024cash], audits := [] }

/-- Fixture: calendar year 2024 as an open, current period (id 1). -/
def yr2024open : FinancialYear :=
  { id := 1, tenant_id := 1, year_name := "FY 2024",
    start_date := ⟨2024, 1, 1⟩, end_date := ⟨2024, 12, 31⟩,
    status := .OPEN, is_current := true }

/-- Fixture datastore for the closing-failure evaluation: a single open 2024
period holding one categorized transaction, with no balance rows yet (the
embedded cascade will create one). -/
def dbOneOpenYear : DB :=
  { years := [yr2024open], accounts := [acctCash],
    categories := [catSales], transactions := [txnIncome2024],
    balances := [], audits := [] }

/-- Fixture: calendar year 2025 as a closed period (id 2). -/
def yr2025closed : FinancialYear :=
  { id := 2, tenant_id := 1, year_name := "FY 2025",
    start_date := ⟨2025, 1, 1⟩, end_date := ⟨2025, 12, 31⟩,
    status := .CLOSED, is_current := false }

/-- Fixture: a bank account (id 11) with base opening balance 0. -/
def acctBank : MoneyAccount :=
  { id := 11, tenant_id := 1, name := "Bank", opening_balance := 0,
    current_balance := 0 }

/-- Fixture: a categorized income transaction of 100 posted to the cash
account in the closed 2025 period. -/
def txnIncome2025 : Transaction :=
  { id := 100, tenant_id := 1, account_id := 10, category_id := some 50,
    fiscal_year_id := some 2, transaction_type := .INCOME, amount := 100,
    transaction_date := ⟨2025, 3, 1⟩ }

/-- Fixture: the stored balance row of the cash account for the closed 2025
period (opening 100 carried from 2024, one income of 100). -/
def bal2025cash : AccountYearBalance :=
  { tenant_id := 1, financial_year_id := 2, account_id := 10,
    opening_balance := 100, closing_balance := 200, total_income := 100,
    total_expense := 0, transaction_count := 1, is_final := true,
    last_recalculated_at := some 1, recalculation_count := 1 }

/-- Fixture: the stored balance row of the cash account for the closed 2024
period with no transactions (closing 100 pretends an earlier history). -/
def bal2024cashQuiet : AccountYearBalance :=
  { tenant_id := 1, financial_year_id := 1, account_id := 10,
    opening_balance := 100, closing_balance := 100, total_income := 0,
    total_expense := 0, transaction_count := 0, is_final := true,
    last_recalculated_at := some 1, recalculation_count := 1 }

/-- Fixture datastore for the amendment-hook evaluation: closed periods 2024
and 2025, the transaction sitting in 2025 on the cash account. -/
def dbTwoClosedYears : DB :=
  { years := [yr2024closed, yr2025closed], accounts := [acctCash, acctBank],
    categories := [catSales], transactions := [txnIncome2025],
    balances := [bal2024cashQuiet, bal2025cash], audits := [] }

/-- Fixture: the amendment moving the 2025 transaction back into 2024 and
onto the bank account. -/
def moveBackUpdate : TransactionUpdate :=
  { account_id := some 11, transaction_date := some ⟨2024, 6, 1⟩ }

/-- Fixture: a mid-year period 2024-03-01 .. 2024-06-30 (id 1). -/
def yrMid2024 : FinancialYear :=
  { id := 1, tenant_id := 1, year_name := "FY mid 2024",
    start_date := ⟨2024, 3, 1⟩, end_date := ⟨2024, 6, 30⟩,
    status := .OPEN, is_current := true }

/-- Fixture datastore for the overlap evaluation: one mid-2024 period. -/
def dbMidYear : DB :=
  { years := [yrMid2024], accounts := [], categories := [],
    transactions := [], balances := [], audits := [] }

/-- Fixture: an uncategorized expense transaction in the 2024 period. -/
def txnUncategorized : Transaction :=
  { id := 101, tenant_id := 1, account_id := 10, category_id := none,
    fiscal_year_id := some 1, transaction_type := .EXPENSE, amount := 40,
    transaction_date := ⟨2024, 7, 1⟩ }

/-- Fixture datastore: an open 2024 period holding one uncategorized
transaction. -/
def dbUncategorized : DB :=
  { years := [yr2024open], accounts := [acctCash], categories := [catSales],
    transactions := [txnUncategorized], balances := [], audits := [] }

/-! Claim theorems. -/

/-- C1 (code bug evaluation): recalculating from the 2025 period of
`dbTwoYears` writes an opening balance of 0 for (2025, cash) — the
account's base opening balance — although the stored closing balance of the
immediately preceding 2024 period for that account is 100.
`_get_opening_balance` scans only the chain being recalculated, in which the
starting period has no predecessor, so the prior period's closing balance is
ignored, contradicting both the claim and the function's own docstring. -/
theorem C1_opening_balance_ignores_prior_period :
    ((lookupBalance (recalculate_cascade dbTwoYears 1 7 2 none).1.balances 2 10).map
        (fun b => b.opening_balance)) = some 0 ∧
    ((lookupBalance (recalculate_cascade dbTwoYears 1 7 2 none).1.balances 1 10).map
        (fun b => b.closing_balance)) = some 100 := by
  decide

/-- C2 (counterexample): closing the open 2024 period of `dbOneOpenYear`
with a failure injected at the audit-record step reports failure, yet the
resulting datastore is NOT the pre-call state: the balance row committed by
the embedded cascade recalculation persists, because `recalculate_cascade`
commits its own transaction before the closing steps run. -/
theorem C2_counterexample_cascade_commit_survives_rollback :
    (close_financial_year dbOneOpenYear 1 1 99 5 true true (some .audit)).1 ≠
      dbOneOpenYear ∧
    (close_financial_year dbOneOpenYear 1 1 99 5 true true (some .audit)).2.success =
      false := by
  decide

/-- C3 (code bug evaluation): in `dbTwoClosedYears`, the 2024 period starts
before the 2025 period; amending the transaction so that it moves from the
2025 period to the 2024 period and from the cash account (10) to the bank
account (11) triggers a recalculation that starts from the OLD (2025)
period with only the NEW account: afterwards the transaction sits in period
1 on account 11, yet no balance row exists for (2024, bank), the stale
(2024, cash) row is untouched, and the only row recalculated is
(2025, bank) — the chronologically earlier period and the old account are
never recalculated, contradicting the claim and the source's own comment
("recalculate from the earlier year"). -/
theorem C3_recalc_starts_at_old_period_with_new_account_only :
    Date.blt yr2024closed.start_date yr2025closed.start_date = true ∧
    ((update_transaction dbTwoClosedYears 1 9 100 moveBackUpdate true).toOption.map
      (fun d =>
        (d.transactions.map (fun t => (t.fiscal_year_id, t.account_id)),
         lookupBalance d.balances 1 11,
         lookupBalance d.balances 1 10,
         (lookupBalance d.balances 2 11).map (fun b => b.last_recalculated_at)))) =
      some ([(some 1, 11)], none, some bal2024cashQuiet, some (some 9)) := by
  decide

/-- C6 (code bug evaluation): the requested range 2024-01-01..2024-12-31
strictly contains the existing period 2024-03-01..2024-06-30 of `dbMidYear`
(so the two ranges intersect), yet `create_financial_year` succeeds and
inserts a second period: the overlap check only tests whether the new start
or the new end falls inside an existing period, missing containment,
contradicting the endpoint's own docstring ("No overlapping dates with
existing years"). -/
theorem C6_containment_overlap_is_not_detected :
    Date.ble (⟨2024, 1, 1⟩ : Date) yrMid2024.start_date = true ∧
    Date.ble yrMid2024.end_date (⟨2024, 12, 31⟩ : Date) = true ∧
    ((create_financial_year dbMidYear 1 9 "FY 2024" ⟨2024, 1, 1⟩ ⟨2024, 12, 31⟩
        false).toOption.map (fun r => r.1.years.length)) = some 2 := by
  decide

/-- Helper for C5: a transaction of the year without a category forces
`can_close = false`. -/
theorem validate_can_close_false_of_uncategorized
    (db : DB) (tenant year_id : Nat) (t : Transaction)
    (ht : t ∈ db.transactions) (hfy : t.fiscal_year_id = some year_id)
    (hcat : t.category_id = none) :
    (validate_year_closing db tenant year_id).can_close = false := by
  have hmem : t ∈ db.transactions.filter
      (fun t => t.fiscal_year_id == some year_id && t.category_id == none) := by
    rw [List.mem_filter]
    exact ⟨ht, by simp [hfy, hcat]⟩
  have hpos : 0 < (db.transactions.filter
      (fun t => t.fiscal_year_id == some year_id && t.category_id == none)).length :=
    List.length_pos.mpr (List.ne_nil_of_mem hmem)
  unfold validate_year_closing
  rcases hy : getYear db tenant year_id with _ | year
  · rfl
  · simp only
    rw [if_pos hpos]
    rcases hs : year.status.isClosed <;> simp

/-- C5: whenever the period contains at least one uncategorized transaction,
`close_financial_year` fails the validation step and returns the datastore
unchanged — the period status is untouched, no balance row is frozen and no
audit record is written, regardless of the option flags or of any injected
later failure. -/
theorem C5_close_blocks_on_uncategorized
    (db : DB) (tenant year_id user_id now : Nat) (vc cnp : Bool)
    (failAt : Option CloseStep) (t : Transaction)
    (ht : t ∈ db.transactions) (hfy : t.fiscal_year_id = some year_id)
    (hcat : t.category_id = none) :
    close_financial_year db tenant year_id user_id now vc cnp failAt =
      (db, { success := false, message := "Cannot close year",
             financial_year_id := year_id, next_year_id := none,
             balance_snapshots_created := 0 }) := by
  have hv := validate_can_close_false_of_uncategorized db tenant year_id t ht hfy hcat
  unfold close_financial_year
  simp only [hv, Bool.not_false, if_true]

/-- Witness for C5 at the concrete `dbUncategorized` store. -/
theorem C5_close_blocks_on_uncategorized_witness :
    close_financial_year dbUncategorized 1 1 99 5 true true none =
      (dbUncategorized,
       { success := false, message := "Cannot close year",
         financial_year_id := 1, next_year_id := none,
         balance_snapshots_created := 0 }) :=
  C5_close_blocks_on_uncategorized dbUncategorized 1 1 99 5 true true none
    txnUncategorized (by decide) (by decide) (by decide)

/-- C10: `close_financial_year` never reads its `validate_categories`
option: with all other arguments fixed, the call with
`validate_categories = True` returns exactly the same datastore and
response as the call with `validate_categories = False` — the uncategorized
check runs unconditionally either way. -/
theorem C10_validate_categories_flag_is_ignored
    (db : DB) (tenant year_id user_id now : Nat) (cnp : Bool)
    (failAt : Option CloseStep) :
    close_financial_year db tenant year_id user_id now true cnp failAt =
      close_financial_year db tenant year_id user_id now false cnp failAt := rfl

/-! Date order facts. -/

/-- The strict date order is irreflexive. -/
theorem Date.blt_irrefl (a : Date) : Date.blt a a = false := by
  simp [Date.blt]

/-- The strict date order is asymmetric. -/
theorem Date.blt_asymm (a b : Date) (h : Date.blt a b = true) :
    Date.blt b a = false := by
  simp only [Date.blt, Bool.or_eq_true, Bool.and_eq_true, decide_eq_true_eq,
    beq_iff_eq] at h
  simp only [Date.blt, Bool.or_eq_false_iff, Bool.and_eq_false_iff,
    decide_eq_false_iff_not, beq_eq_false_iff_ne, ne_eq]
  omega

/-! The `isImmediatePredecessor` characterization used by the sequence rule. -/

/-- Specification-side predicate: `N` is the immediate chronological
predecessor of `cur` in the tenant's period sequence — a tenant period
ending strictly before `cur` starts, such that every other such period ends
strictly earlier than `N` does. -/
def isImmediatePredecessor (db : DB) (tenant : Nat) (cur N : FinancialYear) : Prop :=
  N ∈ db.years ∧ N.tenant_id = tenant ∧
  Date.blt N.end_date cur.start_date = true ∧
  ∀ y ∈ db.years, y.tenant_id = tenant →
    Date.blt y.end_date cur.start_date = true → y ≠ N →
    Date.blt y.end_date N.end_date = true

instance (db : DB) (tenant : Nat) (cur N : FinancialYear) :
    Decidable (isImmediatePredecessor db tenant cur N) := by
  unfold isImmediatePredecessor
  infer_instance

/-- The latest-end fold of `previousYearByEnd` returns the strict maximum
when one exists. -/
theorem foldLatestEnd_eq_max (N : FinancialYear) :
    ∀ (l : List FinancialYear) (acc : Option FinancialYear),
      (∀ y ∈ l, y ≠ N → Date.blt y.end_date N.end_date = true) →
      (acc = some N ∨
        (N ∈ l ∧ ∀ b, acc = some b → Date.blt b.end_date N.end_date = true)) →
      l.foldl
        (fun best y =>
          match best with
          | none => some y
          | some b => if Date.blt b.end_date y.end_date then some y else best)
        acc = some N := by
  intro l
  induction l with
  | nil =>
    intro acc _ hacc
    rcases hacc with h | ⟨hN, _⟩
    · simpa using h
    · exact absurd hN (List.not_mem_nil N)
  | cons y rest ih =>
    intro acc hmax hacc
    rcases hacc with h | ⟨hN, hbd⟩
    · subst h
      by_cases hyN : y = N
      · subst hyN
        simpa [List.foldl_cons, Date.blt_irrefl] using
          ih (some y) (fun z hz => hmax z (List.mem_cons_of_mem y hz)) (Or.inl rfl)
      · have hy : Date.blt y.end_date N.end_date = true :=
          hmax y (List.mem_cons_self y rest) hyN
        have hny : Date.blt N.end_date y.end_date = false := Date.blt_asymm _ _ hy
        simpa [List.foldl_cons, hny] using
          ih (some N) (fun z hz => hmax z (List.mem_cons_of_mem y hz)) (Or.inl rfl)
    · have hmax' : ∀ z ∈ rest, z ≠ N → Date.blt z.end_date N.end_date = true :=
        fun z hz => hmax z (List.mem_cons_of_mem y hz)
      rcases acc with _ | b
      · by_cases hyN : y = N
        · subst hyN
          simpa [List.foldl_cons] using ih (some y) hmax' (Or.inl rfl)
        · have hNrest : N ∈ rest := (List.mem_cons.mp hN).resolve_left
            (fun h => hyN h.symm)
          have hy : Date.blt y.end_date N.end_date = true :=
            hmax y (List.mem_cons_self y rest) hyN
          simpa [List.foldl_cons] using
            ih (some y) hmax'
              (Or.inr ⟨hNrest, fun b hb => by cases hb; exact hy⟩)
      · have hb : Date.blt b.end_date N.end_date = true := hbd b rfl
        by_cases hyN : y = N
        · subst hyN
          simpa [List.foldl_cons, hb] using ih (some y) hmax' (Or.inl rfl)
        · have hNrest : N ∈ rest := (List.mem_cons.mp hN).resolve_left
            (fun h => hyN h.symm)
          have hy : Date.blt y.end_date N.end_date = true :=
            hmax y (List.mem_cons_self y rest) hyN
          by_cases hcmp : Date.blt b.end_date y.end_date = true
          · simpa [List.foldl_cons, hcmp] using
              ih (some y) hmax'
                (Or.inr ⟨hNrest, fun c hc => by cases hc; exact hy⟩)
          · simp only [Bool.not_eq_true] at hcmp
            simpa [List.foldl_cons, hcmp] using
              ih (some b) hmax'
                (Or.inr ⟨hNrest, fun c hc => by cases hc; exact hb⟩)

/-- Under `isImmediatePredecessor`, the `order_by(end_date.desc()).first()`
query of the sequence rule returns exactly `N`. -/
theorem previousYearByEnd_eq_pred (db : DB) (tenant : Nat) (cur N : FinancialYear)
    (h : isImmediatePredecessor db tenant cur N) :
    previousYearByEnd db tenant cur = some N := by
  obtain ⟨hmem, htenant, hblt, hmax⟩ := h
  unfold previousYearByEnd
  apply foldLatestEnd_eq_max
  · intro y hy hyN
    rw [List.mem_filter] at hy
    obtain ⟨hy1, hy2⟩ := hy
    simp only [Bool.and_eq_true, beq_iff_eq] at hy2
    exact hmax y hy1 hy2.1 hy2.2 hyN
  · refine Or.inr ⟨?_, fun b hb => by cases hb⟩
    rw [List.mem_filter]
    exact ⟨hmem, by simp [htenant, hblt]⟩

/-- When no tenant period ends before `cur` starts, the query finds
nothing. -/
theorem previousYearByEnd_eq_none (db : DB) (tenant : Nat) (cur : FinancialYear)
    (h : ∀ y ∈ db.years, y.tenant_id = tenant →
      Date.blt y.end_date cur.start_date = false) :
    previousYearByEnd db tenant cur = none := by
  unfold previousYearByEnd
  have : db.years.filter (fun y =>
      y.tenant_id == tenant && Date.blt y.end_date cur.start_date) = [] := by
    rw [List.filter_eq_nil_iff]
    intro y hy
    by_cases ht : y.tenant_id = tenant
    · simp [ht, h y hy ht]
    · simp [ht]
  rw [this]
  rfl

/-- When the immediate predecessor of `np1` is OPEN, the sequence rule of
`validate_new_year_transaction` rejects the posting. -/
theorem validate_new_year_false_of_open_pred (db : DB) (tenant : Nat)
    (np1 N : FinancialYear)
    (hfind : db.years.find? (fun y => y.id == np1.id) = some np1)
    (hpred : isImmediatePredecessor db tenant np1 N)
    (hopen : N.status = .OPEN) :
    validate_new_year_transaction db tenant (some np1.id) = false := by
  have hprev := previousYearByEnd_eq_pred db tenant np1 N hpred
  simp only [validate_new_year_transaction, hfind, hprev, hopen,
    FinancialYearStatus.isClosed]

/-- When the immediate predecessor of `np1` is CLOSED, the sequence rule
accepts the posting. -/
theorem validate_new_year_true_of_closed_pred (db : DB) (tenant : Nat)
    (np1 N : FinancialYear)
    (hfind : db.years.find? (fun y => y.id == np1.id) = some np1)
    (hpred : isImmediatePredecessor db tenant np1 N)
    (hclosed : N.status = .CLOSED) :
    validate_new_year_transaction db tenant (some np1.id) = true := by
  have hprev := previousYearByEnd_eq_pred db tenant np1 N hpred
  simp only [validate_new_year_transaction, hfind, hprev, hclosed,
    FinancialYearStatus.isClosed]

/-- When no tenant period ends before `np1` starts, the sequence rule
accepts the posting. -/
theorem validate_new_year_true_of_no_pred (db : DB) (tenant : Nat)
    (np1 : FinancialYear)
    (hfind : db.years.find? (fun y => y.id == np1.id) = some np1)
    (hnone : ∀ y ∈ db.years, y.tenant_id = tenant →
      Date.blt y.end_date np1.start_date = false) :
    validate_new_year_transaction db tenant (some np1.id) = true := by
  have hprev := previousYearByEnd_eq_none db tenant np1 hnone
  simp only [validate_new_year_transaction, hfind, hprev]

/-- Hypothesis bundle for `create_transaction`: the category check passes,
either because no category is supplied or because the supplied category
exists for the tenant with the matching transaction type. -/
def categoryPasses (db : DB) (tenant : Nat) (data : TransactionCreate) : Prop :=
  data.category_id = none ∨
    ∃ cid c, data.category_id = some cid ∧
      db.categories.find?
        (fun c => c.id == cid && c.tenant_id == tenant) = some c ∧
      c.transaction_type = data.transaction_type

/-- `create_transaction` past the account and category checks: when the
sequence rule rejects the auto-assigned year, the endpoint fails with the
sequence-violation error. -/
theorem create_fails_of_seq (db : DB) (tenant user txn_id : Nat)
    (data : TransactionCreate) (acc : MoneyAccount)
    (hacct : db.accounts.find?
      (fun a => a.id == data.account_id && a.tenant_id == tenant) = some acc)
    (hcat : categoryPasses db tenant data)
    (hseq : validate_new_year_transaction db tenant
      (assign_fiscal_year db tenant data.transaction_date) = false) :
    create_transaction db tenant user txn_id data = .error .sequenceViolation := by
  unfold create_transaction
  rw [hacct]
  rcases hcat with hnone | ⟨cid, c, hsome, hfindc, hty⟩
  · simp only [hnone, hseq, Bool.not_false, if_true]
  · simp only [hsome, hfindc, hty, beq_self_eq_true, if_true, hseq,
      Bool.not_false]

/-- `create_transaction` past the account and category checks: when the
sequence rule accepts the auto-assigned year, the endpoint succeeds. -/
theorem create_succeeds_of_seq (db : DB) (tenant user txn_id : Nat)
    (data : TransactionCreate) (acc : MoneyAccount)
    (hacct : db.accounts.find?
      (fun a => a.id == data.account_id && a.tenant_id == tenant) = some acc)
    (hcat : categoryPasses db tenant data)
    (hseq : validate_new_year_transaction db tenant
      (assign_fiscal_year db tenant data.transaction_date) = true) :
    (create_transaction db tenant user txn_id data).toOption.isSome = true := by
  unfold create_transaction
  rw [hacct]
  rcases hcat with hnone | ⟨cid, c, hsome, hfindc, hty⟩
  · simp only [hnone, hseq, Bool.not_true, if_false]
    rfl
  · simp only [hsome, hfindc, hty, beq_self_eq_true, if_true, hseq,
      Bool.not_true, if_false]
    rfl

/-- `update_transaction` re-dating a transaction (date-only payload, admin
caller): when the sequence rule rejects the re-assigned year, the endpoint
fails with the sequence-violation error. -/
theorem update_redate_fails (db : DB) (tenant now transaction_id : Nat)
    (d : Date) (txn : Transaction) (oldAcc : MoneyAccount)
    (htxn : db.transactions.find?
      (fun t => t.id == transaction_id && t.tenant_id == tenant) = some txn)
    (hold : db.accounts.find? (fun a => a.id == txn.account_id) = some oldAcc)
    (hseq : validate_new_year_transaction db tenant
      (assign_fiscal_year db tenant d) = false) :
    update_transaction db tenant now transaction_id
      { transaction_date := some d } true = .error .sequenceViolation := by
  rcases hfy : txn.fiscal_year_id with _ | fid
  · simp only [update_transaction, htxn, hfy, hold, applyUpdate,
      Option.getD_some, hseq, Bool.not_false, if_true, Bool.false_eq_true,
      if_false]
  · rcases hyf : db.years.find? (fun (y : FinancialYear) => y.id == fid)
      with _ | fy
    · simp only [update_transaction, htxn, hfy, hyf, hold, applyUpdate,
        Option.getD_some, hseq, Bool.not_false, if_true, Bool.false_eq_true,
        if_false]
    · simp only [update_transaction, htxn, hfy, hyf, hold, applyUpdate,
        Option.getD_some, Bool.not_true, Bool.and_false, hseq,
        Bool.not_false, if_true, Bool.false_eq_true, if_false]

/-- `update_transaction` re-dating a transaction (date-only payload, admin
caller): when the sequence rule accepts the re-assigned year, the endpoint
succeeds. -/
theorem update_redate_succeeds (db : DB) (tenant now transaction_id : Nat)
    (d : Date) (txn : Transaction) (oldAcc : MoneyAccount)
    (htxn : db.transactions.find?
      (fun t => t.id == transaction_id && t.tenant_id == tenant) = some txn)
    (hold : db.accounts.find? (fun a => a.id == txn.account_id) = some oldAcc)
    (hseq : validate_new_year_transaction db tenant
      (assign_fiscal_year db tenant d) = true) :
    (update_transaction db tenant now transaction_id
      { transaction_date := some d } true).toOption.isSome = true := by
  rcases hfy : txn.fiscal_year_id with _ | fid
  · simp only [update_transaction, htxn, hfy, hold, applyUpdate,
      Option.getD_some, hseq, Bool.not_true, Bool.false_eq_true, if_false]
    split <;> rfl
  · rcases hyf : db.years.find? (fun (y : FinancialYear) => y.id == fid)
      with _ | fy
    · simp only [update_transaction, htxn, hfy, hyf, hold, applyUpdate,
        Option.getD_some, hseq, Bool.not_true, Bool.false_eq_true, if_false]
      split <;> rfl
    · simp only [update_transaction, htxn, hfy, hyf, hold, applyUpdate,
        Option.getD_some, Bool.not_true, Bool.and_false, hseq,
        Bool.false_eq_true, if_false]
      split <;> rfl

/-- C8: a transaction whose date resolves to the period `np1` — whether
posted through `create_transaction` or re-dated into `np1` through
`update_transaction` — fails with the sequence-violation error while the
immediate chronological predecessor of `np1` in the tenant's period
sequence is OPEN, succeeds once that predecessor is CLOSED, and always
succeeds when `np1` has no predecessor (hypotheses: the posting account
exists, the optional category check passes, the re-dated transaction and
its current account exist, and `np1` is the period resolved from the
transaction date; the update is performed by an admin so the closed-year
permission gate cannot interfere). -/
theorem C8_sequence_enforcement
    (db : DB) (tenant user txn_id now transaction_id : Nat)
    (data : TransactionCreate) (txn : Transaction)
    (np1 : FinancialYear) (acc oldAcc : MoneyAccount)
    (hacct : db.accounts.find?
      (fun a => a.id == data.account_id && a.tenant_id == tenant) = some acc)
    (hcat : categoryPasses db tenant data)
    (htxn : db.transactions.find?
      (fun t => t.id == transaction_id && t.tenant_id == tenant) = some txn)
    (hold : db.accounts.find? (fun a => a.id == txn.account_id) = some oldAcc)
    (hassign : assign_fiscal_year db tenant data.transaction_date = some np1.id)
    (hfind : db.years.find? (fun y => y.id == np1.id) = some np1) :
    (∀ N, isImmediatePredecessor db tenant np1 N → N.status = .OPEN →
      create_transaction db tenant user txn_id data = .error .sequenceViolation ∧
      update_transaction db tenant now transaction_id
        { transaction_date := some data.transaction_date } true =
        .error .sequenceViolation) ∧
    (∀ N, isImmediatePredecessor db tenant np1 N → N.status = .CLOSED →
      (create_transaction db tenant user txn_id data).toOption.isSome = true ∧
      (update_transaction db tenant now transaction_id
        { transaction_date := some data.transaction_date }
        true).toOption.isSome = true) ∧
    ((∀ y ∈ db.years, y.tenant_id = tenant →
        Date.blt y.end_date np1.start_date = false) →
      (create_transaction db tenant user txn_id data).toOption.isSome = true ∧
      (update_transaction db tenant now transaction_id
        { transaction_date := some data.transaction_date }
        true).toOption.isSome = true) := by
  refine ⟨?_, ?_, ?_⟩
  · intro N hpred hopen
    have hv : validate_new_year_transaction db tenant
        (assign_fiscal_year db tenant data.transaction_date) = false := by
      rw [hassign]
      exact validate_new_year_false_of_open_pred db tenant np1 N hfind hpred hopen
    exact ⟨create_fails_of_seq db tenant user txn_id data acc hacct hcat hv,
      update_redate_fails db tenant now transaction_id data.transaction_date
        txn oldAcc htxn hold hv⟩
  · intro N hpred hclosed
    have hv : validate_new_year_transaction db tenant
        (assign_fiscal_year db tenant data.transaction_date) = true := by
      rw [hassign]
      exact validate_new_year_true_of_closed_pred db tenant np1 N hfind hpred hclosed
    exact ⟨create_succeeds_of_seq db tenant user txn_id data acc hacct hcat hv,
      update_redate_succeeds db tenant now transaction_id data.transaction_date
        txn oldAcc htxn hold hv⟩
  · intro hnone
    have hv : validate_new_year_transaction db tenant
        (assign_fiscal_year db tenant data.transaction_date) = true := by
      rw [hassign]
      exact validate_new_year_true_of_no_pred db tenant np1 hfind hnone
    exact ⟨create_succeeds_of_seq db tenant user txn_id data acc hacct hcat hv,
      update_redate_succeeds db tenant now transaction_id data.transaction_date
        txn oldAcc htxn hold hv⟩

/-- Fixture datastore: both 2024 and 2025 periods OPEN, holding the 2024
transaction that the re-dating witness moves into 2025. -/
def dbBothOpen : DB :=
  { years := [yr2024open, yr2025open], accounts := [acctCash],
    categories := [catSales], transactions := [txnIncome2024],
    balances := [], audits := [] }

/-- Fixture: the payload posting 50 of categorized income into 2025. -/
def post2025 : TransactionCreate :=
  { account_id := 10, category_id := some 50, transaction_type := .INCOME,
    amount := 50, transaction_date := ⟨2025, 3, 1⟩ }

/-- Witness for C8 at the spec's own scenario: posting into 2025 — by
creating a categorized transaction or by re-dating the stored 2024
transaction — fails while 2024 is OPEN (`dbBothOpen`) and succeeds once
2024 is CLOSED (`dbTwoYears`). -/
theorem C8_sequence_enforcement_witness :
    (create_transaction dbBothOpen 1 1 200 post2025 = .error .sequenceViolation ∧
     update_transaction dbBothOpen 1 5 100
       { transaction_date := some post2025.transaction_date } true =
       .error .sequenceViolation) ∧
    ((create_transaction dbTwoYears 1 1 200 post2025).toOption.isSome = true ∧
     (update_transaction dbTwoYears 1 5 100
       { transaction_date := some post2025.transaction_date }
       true).toOption.isSome = true) := by
  constructor
  · exact (C8_sequence_enforcement dbBothOpen 1 1 200 5 100 post2025
      txnIncome2024 yr2025open acctCash acctCash (by decide)
      (Or.inr ⟨50, catSales, rfl, by decide, rfl⟩) (by decide) (by decide)
      (by decide) (by decide)).1 yr2024open (by decide) (by decide)
  · exact (C8_sequence_enforcement dbTwoYears 1 1 200 5 100 post2025
      txnIncome2024 yr2025open acctCash acctCash (by decide)
      (Or.inr ⟨50, catSales, rfl, by decide, rfl⟩) (by decide) (by decide)
      (by decide) (by decide)).2.1 yr2024closed (by decide) (by decide)

/-! Preservation facts about `recalculate_cascade` (it writes only balance
rows and account live balances). -/

/-- The cascade never touches the years table. -/
theorem recalc_preserves_years (db : DB) (tenant now sid : Nat)
    (ids : Option (List Nat)) :
    (recalculate_cascade db tenant now sid ids).1.years = db.years := by
  unfold recalculate_cascade
  rcases getYear db tenant sid with _ | sy
  · rfl
  · simp only
    split
    · rfl
    · rfl

/-- The cascade never touches the transactions table. -/
theorem recalc_preserves_transactions (db : DB) (tenant now sid : Nat)
    (ids : Option (List Nat)) :
    (recalculate_cascade db tenant now sid ids).1.transactions = db.transactions := by
  unfold recalculate_cascade
  rcases getYear db tenant sid with _ | sy
  · rfl
  · simp only
    split
    · rfl
    · rfl

/-- The cascade never touches the audit table. -/
theorem recalc_preserves_audits (db : DB) (tenant now sid : Nat)
    (ids : Option (List Nat)) :
    (recalculate_cascade db tenant now sid ids).1.audits = db.audits := by
  unfold recalculate_cascade
  rcases getYear db tenant sid with _ | sy
  · rfl
  · simp only
    split
    · rfl
    · rfl

/-- C2 (amended): when any post-validation step of `close_financial_year`
fails — freezing, the audit write, or (when requested) the next-period
creation — the failure is reported and the rollback restores the session to
its last commit point: the years table and the audit table are exactly the
pre-call ones (so the period is never left CLOSED and no audit record
survives), and, whenever validation had passed, the resulting datastore
equals the state committed by the embedded cascade recalculation — not the
pre-call state, because `recalculate_cascade` commits on its own. -/
theorem C2_failure_rolls_back_to_cascade_commit
    (db : DB) (tenant year_id user_id now : Nat) (vc cnp : Bool) (f : CloseStep)
    (hf : f = CloseStep.nextYear → cnp = true) :
    (close_financial_year db tenant year_id user_id now vc cnp (some f)).1.years =
      db.years ∧
    (close_financial_year db tenant year_id user_id now vc cnp (some f)).1.audits =
      db.audits ∧
    (close_financial_year db tenant year_id user_id now vc cnp (some f)).2.success =
      false ∧
    ((validate_year_closing db tenant year_id).can_close = true →
      (close_financial_year db tenant year_id user_id now vc cnp (some f)).1 =
        (recalculate_cascade db tenant now year_id none).1) := by
  unfold close_financial_year
  rcases hv : (validate_year_closing db tenant year_id).can_close
  · simp [hv]
  · simp only [hv, Bool.not_true, Bool.false_eq_true, if_false]
    rcases hy : getYear db tenant year_id with _ | year
    · refine ⟨rfl, rfl, rfl, fun _ => ?_⟩
      unfold recalculate_cascade
      rw [hy]
    · simp only
      rcases hs : (recalculate_cascade db tenant now year_id none).2.success
      · simp only [hs, Bool.not_false, if_true]
        refine ⟨recalc_preserves_years db tenant now year_id none,
          recalc_preserves_audits db tenant now year_id none, ?_, ?_⟩ <;> trivial
      · simp only [hs, Bool.not_true, Bool.false_eq_true, if_false]
        cases f with
        | freeze =>
          simp only [show ((some CloseStep.freeze == some CloseStep.freeze) = true)
            from rfl, if_true]
          refine ⟨recalc_preserves_years db tenant now year_id none,
            recalc_preserves_audits db tenant now year_id none, ?_, ?_⟩ <;> trivial
        | audit =>
          simp only [show ((some CloseStep.audit == some CloseStep.freeze) = false)
            from rfl, Bool.false_eq_true, if_false,
            show ((some CloseStep.audit == some CloseStep.audit) = true) from rfl,
            if_true]
          refine ⟨recalc_preserves_years db tenant now year_id none,
            recalc_preserves_audits db tenant now year_id none, ?_, ?_⟩ <;> trivial
        | nextYear =>
          have hc : cnp = true := hf rfl
          subst hc
          simp only [show ((some CloseStep.nextYear == some CloseStep.freeze) = false)
            from rfl, Bool.false_eq_true, if_false,
            show ((some CloseStep.nextYear == some CloseStep.audit) = false) from rfl,
            if_true,
            show ((some CloseStep.nextYear == some CloseStep.nextYear) = true)
            from rfl]
          refine ⟨recalc_preserves_years db tenant now year_id none,
            recalc_preserves_audits db tenant now year_id none, ?_, ?_⟩ <;> trivial

/-- Witness for the amended C2 at `dbOneOpenYear` with the audit step
failing. -/
theorem C2_failure_rolls_back_to_cascade_commit_witness :
    (close_financial_year dbOneOpenYear 1 1 99 5 true true (some .audit)).1.years =
      dbOneOpenYear.years ∧
    (close_financial_year dbOneOpenYear 1 1 99 5 true true (some .audit)).1.audits =
      dbOneOpenYear.audits ∧
    (close_financial_year dbOneOpenYear 1 1 99 5 true true (some .audit)).2.success =
      false ∧
    ((validate_year_closing dbOneOpenYear 1 1).can_close = true →
      (close_financial_year dbOneOpenYear 1 1 99 5 true true (some .audit)).1 =
        (recalculate_cascade dbOneOpenYear 1 5 1 none).1) :=
  C2_failure_rolls_back_to_cascade_commit dbOneOpenYear 1 1 99 5 true true
    CloseStep.audit (by decide)

/-! Helper lemmas about id freshness, keyed lookups and the fiscal-year ids
reachable by cascade writes, used for the next-period seeding claim. -/

/-- A max-fold is bounded below by its initial value. -/
theorem foldl_max_le_init (l : List FinancialYear) (init : Nat) :
    init ≤ l.foldl (fun m z => max m z.id) init := by
  induction l generalizing init with
  | nil => exact le_refl _
  | cons z rest ih => exact le_trans (le_max_left _ _) (ih (max init z.id))

/-- Every member's id is bounded by the max-fold. -/
theorem mem_le_foldl_max (y : FinancialYear) :
    ∀ (l : List FinancialYear) (init : Nat), y ∈ l →
      y.id ≤ l.foldl (fun m z => max m z.id) init := by
  intro l
  induction l with
  | nil => intro init h; cases h
  | cons z rest ih =>
    intro init h
    rcases List.mem_cons.mp h with h | h
    · subst h
      exact le_trans (le_max_right init y.id) (foldl_max_le_init rest _)
    · exact ih _ h

/-- A fresh year id differs from every existing year's id. -/
theorem freshYearId_not_mem (db : DB) (y : FinancialYear) (hy : y ∈ db.years) :
    y.id ≠ freshYearId db := by
  have := mem_le_foldl_max y db.years 0 hy
  unfold freshYearId
  omega

/-- `find?` skips a prefix on which the predicate never holds. -/
theorem find?_append_of_forall_false {α : Type} (p : α → Bool) (l1 l2 : List α)
    (h : ∀ x ∈ l1, p x = false) :
    (l1 ++ l2).find? p = l2.find? p := by
  rw [List.find?_append]
  have : l1.find? p = none := by
    rw [List.find?_eq_none]
    intro x hx
    simp [h x hx]
  rw [this]
  rfl

/-- On a list with no duplicate keys, the keyed `find?` of a member returns
exactly that member. -/
theorem find?_eq_of_key_nodup {α : Type} (k : α → Nat) :
    ∀ (l : List α) (x : α), (l.map k).Nodup → x ∈ l →
      l.find? (fun z => k z == k x) = some x := by
  intro l
  induction l with
  | nil => intro x _ hx; cases hx
  | cons y rest ih =>
    intro x hnd hx
    rcases List.mem_cons.mp hx with h | h
    · subst h
      simp [List.find?_cons]
    · by_cases hk : k y = k x
      · exfalso
        have hy_not : k y ∉ rest.map k := (List.nodup_cons.mp (by simpa using hnd)).1
        exact hy_not (hk ▸ List.mem_map_of_mem k h)
      · rw [List.find?_cons_of_neg _ (by simp [hk])]
        exact ih x (List.Nodup.of_cons (by simpa using hnd)) h

/-- Keys survive `filterMap` as a sublist when the function preserves the
key. -/
theorem filterMap_keys_sublist {α β : Type} (f : α → Option β)
    (ka : α → Nat) (kb : β → Nat)
    (h : ∀ x e, f x = some e → kb e = ka x) :
    ∀ l : List α, ((l.filterMap f).map kb).Sublist (l.map ka) := by
  intro l
  induction l with
  | nil => simp
  | cons y rest ih =>
    cases hf : f y with
    | none =>
      rw [List.filterMap_cons_none hf, List.map_cons]
      exact ih.cons (ka y)
    | some e =>
      rw [List.filterMap_cons_some hf, List.map_cons, List.map_cons, h y e hf]
      exact ih.cons₂ (ka y)

/-- A balance upsert only introduces the written year's id as a new
fiscal-year id. -/
theorem write_fy_mem (tenant : Nat) (year : FinancialYear) (aid : Nat)
    (o c i e : Money) (cnt now : Nat) :
    ∀ (bs : List AccountYearBalance) (b : AccountYearBalance),
      b ∈ writeBalance tenant year aid o c i e cnt now bs →
      b.financial_year_id ∈ bs.map (·.financial_year_id) ∨
        b.financial_year_id = year.id := by
  intro bs
  induction bs with
  | nil =>
    intro b hb
    simp only [writeBalance, List.mem_singleton] at hb
    subst hb
    right
    rfl
  | cons x rest ih =>
    intro b hb
    simp only [writeBalance] at hb
    split at hb
    · rcases List.mem_cons.mp hb with h | h
      · subst h
        left
        exact List.mem_cons_self _ _
      · left
        exact List.mem_cons_of_mem _ (List.mem_map_of_mem _ h)
    · rcases List.mem_cons.mp hb with h | h
      · subst h
        left
        exact List.mem_cons_self _ _
      · rcases ih b h with h' | h'
        · left
          rw [List.map_cons]
          exact List.mem_cons_of_mem _ h'
        · right
          exact h'

/-- The inner (per-account) cascade loop only introduces the processed
year's id as a new fiscal-year id. -/
theorem innerFold_fy_mem (txns : List Transaction) (tenant : Nat)
    (ysAll : List FinancialYear) (y : FinancialYear) (now : Nat) :
    ∀ (as : List MoneyAccount) (bs : List AccountYearBalance)
      (b : AccountYearBalance),
      b ∈ as.foldl (fun bs a => processYearAccount txns tenant ysAll y a now bs) bs →
      b.financial_year_id ∈ bs.map (·.financial_year_id) ∨
        b.financial_year_id = y.id := by
  intro as
  induction as with
  | nil => intro bs b hb; left; exact List.mem_map_of_mem _ hb
  | cons a rest ih =>
    intro bs b hb
    rw [List.foldl_cons] at hb
    rcases ih _ b hb with h | h
    · rw [List.mem_map] at h
      obtain ⟨b', hb', hfy⟩ := h
      rcases write_fy_mem tenant y a.id _ _ _ _ _ now bs b' hb' with h' | h'
      · left
        exact hfy ▸ h'
      · right
        exact hfy ▸ h'
    · right
      exact h

/-- The cascade loops only introduce chain-year ids as new fiscal-year
ids. -/
theorem processChain_fy_mem (txns : List Transaction) (tenant : Nat)
    (ysAll : List FinancialYear) (as : List MoneyAccount) (now : Nat) :
    ∀ (pending : List FinancialYear) (bs : List AccountYearBalance)
      (b : AccountYearBalance),
      b ∈ pending.foldl
        (fun bs y => as.foldl (fun bs a => processYearAccount txns tenant ysAll y a now bs) bs)
        bs →
      b.financial_year_id ∈ bs.map (·.financial_year_id) ∨
        b.financial_year_id ∈ pending.map (·.id) := by
  intro pending
  induction pending with
  | nil => intro bs b hb; left; exact List.mem_map_of_mem _ hb
  | cons y rest ih =>
    intro bs b hb
    rw [List.foldl_cons] at hb
    rcases ih _ b hb with h | h
    · rw [List.mem_map] at h
      obtain ⟨b', hb', hfy⟩ := h
      rcases innerFold_fy_mem txns tenant ysAll y now as bs b' hb' with h' | h'
      · left
        exact hfy ▸ h'
      · right
        rw [List.map_cons]
        exact hfy ▸ h' ▸ List.mem_cons_self _ _
    · right
      rw [List.map_cons]
      exact List.mem_cons_of_mem _ h

/-- Every year of the forward chain is a year of the store. -/
theorem chainOf_subset (db : DB) (tenant : Nat) (sy : FinancialYear) :
    ∀ y ∈ chainOf db tenant sy, y ∈ db.years := by
  intro y hy
  unfold chainOf sortByStartDate at hy
  have hperm := List.perm_insertionSort startLE
    (db.years.filter (fun y => y.tenant_id == tenant && Date.ble sy.start_date y.start_date))
  exact List.mem_of_mem_filter (hperm.mem_iff.mp hy)

/-- The cascade's result references only fiscal-year ids that already occur
in the store's year table (assuming the input balances do). -/
theorem recalc_balances_fy (db : DB) (tenant now sid : Nat)
    (ids : Option (List Nat))
    (hbfy : ∀ b ∈ db.balances, b.financial_year_id ∈ db.years.map (·.id)) :
    ∀ b ∈ (recalculate_cascade db tenant now sid ids).1.balances,
      b.financial_year_id ∈ db.years.map (·.id) := by
  unfold recalculate_cascade
  rcases hy : getYear db tenant sid with _ | sy
  · exact hbfy
  · simp only
    split
    · exact hbfy
    · intro b hb
      simp only at hb
      rcases processChain_fy_mem db.transactions tenant (chainOf db tenant sy)
        (accountsFor db tenant ids) now (chainOf db tenant sy) db.balances b hb with h | h
      · rw [List.mem_map] at h
        obtain ⟨b', hb', hfy⟩ := h
        exact hfy ▸ hbfy b' hb'
      · rw [List.mem_map] at h
        obtain ⟨y', hy', hid⟩ := h
        exact hid ▸ List.mem_map_of_mem _ (chainOf_subset db tenant sy y' hy')

/-- The cascade always reports success when the starting year exists. -/
theorem recalc_success_of_found (db : DB) (tenant now sid : Nat)
    (ids : Option (List Nat)) (sy : FinancialYear)
    (hy : getYear db tenant sid = some sy) :
    (recalculate_cascade db tenant now sid ids).2.success = true := by
  unfold recalculate_cascade
  rw [hy]
  simp only
  split
  · rfl
  · rfl

/-- Freezing preserves the fiscal-year id of every balance row. -/
theorem freezeBalances_fy_map (db : DB) (year_id : Nat) :
    (freezeBalances db year_id).balances.map (·.financial_year_id) =
      db.balances.map (·.financial_year_id) := by
  unfold freezeBalances
  rw [List.map_map]
  apply List.map_congr_left
  intro b _
  simp only [Function.comp_apply]
  split <;> rfl

/-- Closing the year record preserves every year's id. -/
theorem markYearClosed_id_map (db : DB) (yid user_id now : Nat) :
    (markYearClosed db yid user_id now).years.map (·.id) =
      db.years.map (·.id) := by
  unfold markYearClosed
  rw [List.map_map]
  apply List.map_congr_left
  intro y _
  simp only [Function.comp_apply]
  split <;> rfl

/-- The audit row written by step 5 of the closing workflow. -/
def auditRowFor (tenant year_id user_id now : Nat) (snap : BalanceSnapshot)
    (total_transactions : Nat) : YearClosingAudit :=
  { tenant_id := tenant, financial_year_id := year_id, action := .CLOSE,
    balance_snapshot := snap, performed_by := user_id, performed_at := now,
    reason := "Year closing", total_accounts := snap.accounts.length,
    total_transactions := total_transactions }

/-- Appending an audit row to the store. -/
def appendAudit (db : DB) (row : YearClosingAudit) : DB :=
  { db with audits := db.audits ++ [row] }

/-- The store state after steps 2-4 of a successful closing: cascade
recalculation (committed), frozen balances, year marked CLOSED. -/
def frozenClosedState (db : DB) (tenant year_id user_id now : Nat)
    (year : FinancialYear) : DB :=
  markYearClosed (freezeBalances (recalculate_cascade db tenant now year_id none).1
    year_id) year.id user_id now

/-- Shape of a fully successful `close_financial_year` run with
`create_next_year = True` and no injected failure. -/
theorem close_success_shape (db : DB) (tenant year_id user_id now : Nat) (vc : Bool)
    (year : FinancialYear) (hy : getYear db tenant year_id = some year)
    (hval : (validate_year_closing db tenant year_id).can_close = true) :
    close_financial_year db tenant year_id user_id now vc true none =
      ((create_next_year_op
          (appendAudit (frozenClosedState db tenant year_id user_id now year)
            (auditRowFor tenant year_id user_id now
              (create_balance_snapshot
                (frozenClosedState db tenant year_id user_id now year) year_id)
              (validate_year_closing db tenant year_id).total_transactions))
          tenant year
          (create_balance_snapshot
            (frozenClosedState db tenant year_id user_id now year) year_id)).1,
       { success := true, message := "Financial year closed successfully",
         financial_year_id := year_id,
         next_year_id := some (create_next_year_op
          (appendAudit (frozenClosedState db tenant year_id user_id now year)
            (auditRowFor tenant year_id user_id now
              (create_balance_snapshot
                (frozenClosedState db tenant year_id user_id now year) year_id)
              (validate_year_closing db tenant year_id).total_transactions))
          tenant year
          (create_balance_snapshot
            (frozenClosedState db tenant year_id user_id now year) year_id)).2,
         balance_snapshots_created :=
           (create_balance_snapshot
             (frozenClosedState db tenant year_id user_id now year)
             year_id).accounts.length }) := by
  unfold close_financial_year
  simp only [hval, Bool.not_true, Bool.false_eq_true, if_false]
  rw [hy]
  simp only [recalc_success_of_found db tenant now year_id none year hy,
    Bool.not_true, Bool.false_eq_true, if_false]
  rfl

/-- Unfolding of the next-year creation result state. -/
theorem create_next_year_op_fst (db : DB) (tenant : Nat) (cy : FinancialYear)
    (snap : BalanceSnapshot) :
    (create_next_year_op db tenant cy snap).1 =
      { db with years := db.years ++ [nextYearRecord db tenant cy],
                balances := db.balances ++
                  snap.accounts.map (seedBalance tenant (nextYearRecord db tenant cy).id) } :=
  rfl

/-- C9: a successful `close_financial_year` with `create_next_year = True`
appends exactly one new period — OPEN, `is_current`, starting the day after
the closed period's end and ending one year minus a day after that start —
and, for every balance row of the closed period whose account exists, seeds
the new period with a balance row whose opening balance equals that row's
closing balance, with closing equal to opening, zeroed income, expense and
transaction count, and `is_final = False`.  Hypotheses: the year exists and
validation passes, every stored balance row references an existing year id
(a foreign-key fact of the schema), and the closed period holds at most one
balance row per account (a uniqueness fact of the schema). -/
theorem C9_closing_seeds_next_period
    (db : DB) (tenant year_id user_id now : Nat) (vc : Bool)
    (year : FinancialYear)
    (hy : getYear db tenant year_id = some year)
    (hval : (validate_year_closing db tenant year_id).can_close = true)
    (hbfy : ∀ b ∈ db.balances, b.financial_year_id ∈ db.years.map (·.id))
    (hdup : (((close_financial_year db tenant year_id user_id now vc true
        none).1.balances.filter
        (fun b => b.financial_year_id == year_id)).map (·.account_id)).Nodup) :
    (close_financial_year db tenant year_id user_id now vc true none).2.success = true ∧
    (close_financial_year db tenant year_id user_id now vc true none).1.years.length =
      db.years.length + 1 ∧
    ∃ ny, (close_financial_year db tenant year_id user_id now vc true
        none).1.years.getLast? = some ny ∧
      ny.status = .OPEN ∧ ny.is_current = true ∧
      ny.start_date = Date.nextDay year.end_date ∧
      ny.end_date = Date.prevDay (Date.addYearClamp (Date.nextDay year.end_date)) ∧
      ∀ b ∈ (close_financial_year db tenant year_id user_id now vc true
          none).1.balances,
        b.financial_year_id = year_id →
        ∀ acct, (close_financial_year db tenant year_id user_id now vc true
            none).1.accounts.find? (fun a => a.id == b.account_id) = some acct →
        ∃ sb, lookupBalance (close_financial_year db tenant year_id user_id now vc
            true none).1.balances ny.id b.account_id = some sb ∧
          sb.opening_balance = b.closing_balance ∧
          sb.closing_balance = b.closing_balance ∧
          sb.total_income = 0 ∧ sb.total_expense = 0 ∧
          sb.transaction_count = 0 ∧ sb.is_final = false := by
  rw [close_success_shape db tenant year_id user_id now vc year hy hval] at hdup ⊢
  set S := frozenClosedState db tenant year_id user_id now year with hS
  set snap := create_balance_snapshot S year_id with hsnap
  set db4 := appendAudit S (auditRowFor tenant year_id user_id now snap
    (validate_year_closing db tenant year_id).total_transactions) with hdb4
  rw [create_next_year_op_fst] at hdup ⊢
  set ny := nextYearRecord db4 tenant year with hny
  have hSyears : S.years.map (·.id) = db.years.map (·.id) := by
    rw [hS]
    unfold frozenClosedState
    rw [markYearClosed_id_map]
    show (recalculate_cascade db tenant now year_id none).1.years.map (·.id) = _
    rw [recalc_preserves_years]
  have hyearmem : year ∈ db.years := List.mem_of_find?_eq_some hy
  have hyearid : year.id = year_id := by
    have h2 := List.find?_some hy
    simp only [Bool.and_eq_true, beq_iff_eq] at h2
    exact h2.1
  have hid4 : db4.years.map (·.id) = db.years.map (·.id) := hSyears
  have hfresh : ∀ n ∈ db.years.map (·.id), n ≠ freshYearId db4 := by
    intro n hn
    rw [← hid4] at hn
    obtain ⟨yy, hyy, hyid⟩ := List.mem_map.mp hn
    exact hyid ▸ freshYearId_not_mem db4 yy hyy
  have hnyid : ny.id = freshYearId db4 := rfl
  have hyne : year_id ≠ ny.id := by
    rw [hnyid]
    apply hfresh
    rw [← hyearid]
    exact List.mem_map_of_mem _ hyearmem
  refine ⟨rfl, ?_, ?_⟩
  · show (db4.years ++ [ny]).length = db.years.length + 1
    rw [List.length_append]
    have : db4.years.length = db.years.length := by
      have := congrArg List.length hid4
      simpa using this
    simp [this]
  refine ⟨ny, ?_, rfl, rfl, rfl, rfl, ?_⟩
  · show (db4.years ++ [ny]).getLast? = some ny
    exact List.getLast?_concat _
  intro b hb hfyb acct hacct
  have hbdb4 : b ∈ db4.balances := by
    rcases List.mem_append.mp hb with h | h
    · exact h
    · exfalso
      obtain ⟨sx, hsx, hseed⟩ := List.mem_map.mp h
      have hfy : b.financial_year_id = ny.id := by rw [← hseed]; rfl
      rw [hfyb] at hfy
      exact hyne hfy
  have hbfilter : b ∈ S.balances.filter
      (fun b => b.financial_year_id == year_id) :=
    List.mem_filter.mpr ⟨hbdb4, by simp [hfyb]⟩
  have hacctS : S.accounts.find? (fun a => a.id == b.account_id) = some acct := hacct
  have hemem : (⟨b.account_id, acct.name, b.opening_balance, b.closing_balance,
      b.total_income, b.total_expense, b.transaction_count⟩ : SnapshotEntry) ∈
      snap.accounts := by
    rw [hsnap]
    show _ ∈ (S.balances.filter (fun b => b.financial_year_id == year_id)).filterMap _
    apply List.mem_filterMap.mpr
    refine ⟨b, hbfilter, ?_⟩
    rw [hacctS]
  have hseednil : ((snap.accounts.map (seedBalance tenant ny.id)).filter
      (fun b => b.financial_year_id == year_id)) = [] := by
    rw [List.filter_eq_nil_iff]
    intro x hx
    obtain ⟨sx, _, hseed⟩ := List.mem_map.mp hx
    rw [← hseed]
    simp only [seedBalance, beq_iff_eq]
    exact fun h => hyne h.symm
  have hnodupS : ((S.balances.filter
      (fun b => b.financial_year_id == year_id)).map (·.account_id)).Nodup := by
    rw [List.filter_append, hseednil, List.append_nil] at hdup
    exact hdup
  have hsub : (snap.accounts.map (·.account_id)).Sublist
      ((S.balances.filter (fun b => b.financial_year_id == year_id)).map
        (·.account_id)) := by
    rw [hsnap]
    show (((S.balances.filter (fun b => b.financial_year_id == year_id)).filterMap
        _).map _).Sublist _
    apply filterMap_keys_sublist
    intro x ee hf
    rcases hfind : S.accounts.find? (fun a => a.id == x.account_id) with _ | a
    · rw [hfind] at hf
      cases hf
    · rw [hfind] at hf
      cases hf
      rfl
  have hnodupsnap : (snap.accounts.map (·.account_id)).Nodup :=
    List.Nodup.sublist hsub hnodupS
  have hprefixfalse : ∀ r ∈ db4.balances,
      (r.financial_year_id == ny.id && r.account_id == b.account_id) = false := by
    intro r hr
    have hmapfy : S.balances.map (·.financial_year_id) =
        (recalculate_cascade db tenant now year_id none).1.balances.map
          (·.financial_year_id) := by
      rw [hS]
      unfold frozenClosedState
      show (freezeBalances (recalculate_cascade db tenant now year_id none).1
        year_id).balances.map _ = _
      exact freezeBalances_fy_map _ _
    have hrfy : r.financial_year_id ∈ db.years.map (·.id) := by
      have hmem : r.financial_year_id ∈ S.balances.map (·.financial_year_id) :=
        List.mem_map_of_mem _ hr
      rw [hmapfy] at hmem
      obtain ⟨r1, hr1, hfy1⟩ := List.mem_map.mp hmem
      exact hfy1 ▸ recalc_balances_fy db tenant now year_id none hbfy r1 hr1
    have hrne : r.financial_year_id ≠ ny.id := by
      rw [hnyid]
      exact hfresh _ hrfy
    simp [hrne]
  refine ⟨seedBalance tenant ny.id ⟨b.account_id, acct.name, b.opening_balance,
    b.closing_balance, b.total_income, b.total_expense, b.transaction_count⟩,
    ?_, rfl, rfl, rfl, rfl, rfl, rfl⟩
  show lookupBalance (db4.balances ++ snap.accounts.map (seedBalance tenant ny.id))
    ny.id b.account_id = _
  unfold lookupBalance
  rw [find?_append_of_forall_false _ _ _ hprefixfalse]
  rw [List.find?_map]
  rw [show snap.accounts.find?
      ((fun b' => b'.financial_year_id == ny.id && b'.account_id == b.account_id) ∘
        seedBalance tenant ny.id) =
      some (⟨b.account_id, acct.name, b.opening_balance, b.closing_balance,
        b.total_income, b.total_expense, b.transaction_count⟩ : SnapshotEntry)
    from ?_]
  · rfl
  · have hpred : ((fun b' => b'.financial_year_id == ny.id &&
        b'.account_id == b.account_id) ∘ seedBalance tenant ny.id) =
        (fun s => s.account_id == b.account_id) := by
      funext sx
      simp [seedBalance, Function.comp]
    rw [hpred]
    exact find?_eq_of_key_nodup (fun s => s.account_id) snap.accounts
      ⟨b.account_id, acct.name, b.opening_balance, b.closing_balance,
        b.total_income, b.total_expense, b.transaction_count⟩ hnodupsnap hemem

/-- Witness for C9: closing the single open 2024 period of `dbOneOpenYear`
creates the seeded 2025 period. -/
theorem C9_closing_seeds_next_period_witness :
    (close_financial_year dbOneOpenYear 1 1 99 5 true true none).2.success = true ∧
    (close_financial_year dbOneOpenYear 1 1 99 5 true true none).1.years.length =
      dbOneOpenYear.years.length + 1 ∧
    ∃ ny, (close_financial_year dbOneOpenYear 1 1 99 5 true true
        none).1.years.getLast? = some ny ∧
      ny.status = .OPEN ∧ ny.is_current = true ∧
      ny.start_date = Date.nextDay yr2024open.end_date ∧
      ny.end_date = Date.prevDay (Date.addYearClamp (Date.nextDay yr2024open.end_date)) ∧
      ∀ b ∈ (close_financial_year dbOneOpenYear 1 1 99 5 true true
          none).1.balances,
        b.financial_year_id = 1 →
        ∀ acct, (close_financial_year dbOneOpenYear 1 1 99 5 true true
            none).1.accounts.find? (fun a => a.id == b.account_id) = some acct →
        ∃ sb, lookupBalance (close_financial_year dbOneOpenYear 1 1 99 5 true
            true none).1.balances ny.id b.account_id = some sb ∧
          sb.opening_balance = b.closing_balance ∧
          sb.closing_balance = b.closing_balance ∧
          sb.total_income = 0 ∧ sb.total_expense = 0 ∧
          sb.transaction_count = 0 ∧ sb.is_final = false :=
  C9_closing_seeds_next_period dbOneOpenYear 1 1 99 5 true yr2024open
    (by decide) (by decide) (by decide) (by decide)

/-! Machinery for the cascade-correctness and idempotence claims: the four
value fields of a balance row, the row with its bookkeeping scrubbed, and
the pure per-account chain specification realized by the cascade loops. -/

/-- The four value fields (with the transaction count) of a balance row. -/
def fourF (b : AccountYearBalance) : Money × Money × Money × Money × Nat :=
  (b.opening_balance, b.closing_balance, b.total_income, b.total_expense,
   b.transaction_count)

/-- A balance row with its recalculation bookkeeping (timestamp and
counter) scrubbed. -/
def scrub (b : AccountYearBalance) : AccountYearBalance :=
  { b with last_recalculated_at := none, recalculation_count := 0 }

/-- A balance table with every row's bookkeeping scrubbed. -/
def scrubList (bs : List AccountYearBalance) : List AccountYearBalance :=
  bs.map scrub

/-- One row of the pure chain specification: the values the cascade stores
for one year of the chain. -/
structure ChainRow where
  yid : Nat
  opening : Money
  closing : Money
  income : Money
  expense : Money
  cnt : Nat
deriving DecidableEq, Repr

/-- The pure chain specification: processing the years in order for one
account, threading the prior closing balance. -/
def chainRows (txns : List Transaction) (a : MoneyAccount) :
    List FinancialYear → Money → List ChainRow
  | [], _ => []
  | y :: rest, prior =>
    let sums := calculate_transaction_sums txns y.id a.id
    ⟨y.id, prior, prior + sums.1 - sums.2.1, sums.1, sums.2.1, sums.2.2⟩ ::
      chainRows txns a rest (prior + sums.1 - sums.2.1)

/-- The closing balance carried out of a chain prefix. -/
def chainClose (txns : List Transaction) (a : MoneyAccount) :
    List FinancialYear → Money → Money
  | [], prior => prior
  | y :: rest, prior =>
    let sums := calculate_transaction_sums txns y.id a.id
    chainClose txns a rest (prior + sums.1 - sums.2.1)

/-- Chain rows over an appended list split at the carried closing
balance. -/
theorem chainRows_append (txns : List Transaction) (a : MoneyAccount) :
    ∀ (l1 l2 : List FinancialYear) (p : Money),
      chainRows txns a (l1 ++ l2) p =
        chainRows txns a l1 p ++ chainRows txns a l2 (chainClose txns a l1 p) := by
  intro l1
  induction l1 with
  | nil => intro l2 p; rfl
  | cons y rest ih =>
    intro l2 p
    simp only [List.cons_append, chainRows, chainClose, List.cons.injEq, true_and]
    exact ih l2 _

/-- The carried closing balance over an appended list. -/
theorem chainClose_append (txns : List Transaction) (a : MoneyAccount) :
    ∀ (l1 l2 : List FinancialYear) (p : Money),
      chainClose txns a (l1 ++ l2) p =
        chainClose txns a l2 (chainClose txns a l1 p) := by
  intro l1
  induction l1 with
  | nil => intro l2 p; rfl
  | cons y rest ih =>
    intro l2 p
    simp only [List.cons_append, chainClose]
    exact ih l2 _

/-- Chain-row year ids are exactly the chain's year ids. -/
theorem chainRows_yids (txns : List Transaction) (a : MoneyAccount) :
    ∀ (ys : List FinancialYear) (p : Money),
      (chainRows txns a ys p).map (·.yid) = ys.map (·.id) := by
  intro ys
  induction ys with
  | nil => intro p; rfl
  | cons y rest ih =>
    intro p
    simp only [chainRows, List.map_cons, List.cons.injEq, true_and]
    exact ih _

/-- Every chain row satisfies the closing-balance equation. -/
theorem chainRows_equation (txns : List Transaction) (a : MoneyAccount) :
    ∀ (ys : List FinancialYear) (p : Money) (r : ChainRow),
      r ∈ chainRows txns a ys p →
      r.closing = r.opening + r.income - r.expense := by
  intro ys
  induction ys with
  | nil => intro p r hr; cases hr
  | cons y rest ih =>
    intro p r hr
    rcases List.mem_cons.mp hr with h | h
    · subst h; rfl
    · exact ih _ r h

/-- Looking a key up right after upserting it yields the written values. -/
theorem lookup_write_self (tenant : Nat) (year : FinancialYear) (aid : Nat)
    (o c i e : Money) (cnt now : Nat) :
    ∀ bs : List AccountYearBalance,
      (lookupBalance (writeBalance tenant year aid o c i e cnt now bs)
        year.id aid).map fourF = some (o, c, i, e, cnt) := by
  intro bs
  induction bs with
  | nil =>
    simp [writeBalance, lookupBalance, List.find?, fourF]
  | cons b rest ih =>
    by_cases h : (b.financial_year_id == year.id && b.account_id == aid) = true
    · simp only [writeBalance, h, if_true]
      simp only [lookupBalance, List.find?, h]
      rfl
    · simp only [writeBalance, h, if_false]
      simp only [lookupBalance, List.find?] at ih ⊢
      simp only [Bool.not_eq_true] at h
      rw [h]
      exact ih

/-- Upserting one key leaves every other key's lookup unchanged. -/
theorem lookup_write_other (tenant : Nat) (year : FinancialYear) (aid : Nat)
    (o c i e : Money) (cnt now : Nat) (yid' aid' : Nat)
    (hne : yid' ≠ year.id ∨ aid' ≠ aid) :
    ∀ bs : List AccountYearBalance,
      lookupBalance (writeBalance tenant year aid o c i e cnt now bs) yid' aid' =
        lookupBalance bs yid' aid' := by
  have hkey : ((year.id == yid' && aid == aid') = false) := by
    rcases hne with h | h
    · have h1 : (year.id == yid') = false := beq_eq_false_iff_ne.mpr (Ne.symm h)
      simp [h1]
    · have h1 : (aid == aid') = false := beq_eq_false_iff_ne.mpr (Ne.symm h)
      simp [h1]
  intro bs
  induction bs with
  | nil =>
    simp only [writeBalance, lookupBalance, List.find?, hkey]
  | cons b rest ih =>
    by_cases h : (b.financial_year_id == year.id && b.account_id == aid) = true
    · simp only [writeBalance, h, if_true]
      have hb2 : (b.financial_year_id == yid' && b.account_id == aid') = false := by
        simp only [Bool.and_eq_true, beq_iff_eq] at h
        rw [h.1, h.2]
        exact hkey
      simp only [lookupBalance, List.find?, hb2]
    · simp only [writeBalance, h, if_false]
      simp only [lookupBalance, List.find?] at ih ⊢
      rcases hb2 : (b.financial_year_id == yid' && b.account_id == aid') <;>
        simp [hb2, ih]

/-- Upserting values identical to the stored ones changes nothing but the
bookkeeping. -/
theorem write_noop_scrub (tenant : Nat) (year : FinancialYear) (aid : Nat)
    (o c i e : Money) (cnt now : Nat) :
    ∀ bs : List AccountYearBalance,
      (lookupBalance bs year.id aid).map fourF = some (o, c, i, e, cnt) →
      scrubList (writeBalance tenant year aid o c i e cnt now bs) =
        scrubList bs := by
  intro bs
  induction bs with
  | nil => intro h; simp [lookupBalance, List.find?] at h
  | cons b rest ih =>
    intro h
    by_cases hb : (b.financial_year_id == year.id && b.account_id == aid) = true
    · simp only [writeBalance, hb, if_true]
      simp only [lookupBalance, List.find?, hb, Option.map_some] at h
      have h4 := Option.some.inj h
      simp only [fourF, Prod.mk.injEq] at h4
      obtain ⟨h1, h2, h3, h4', h5⟩ := h4
      rw [← h1, ← h2, ← h3, ← h4', ← h5]
      simp only [scrubList, List.map_cons]
      rfl
    · simp only [writeBalance, hb, Bool.false_eq_true, if_false]
      simp only [lookupBalance, List.find?] at h
      simp only [Bool.not_eq_true] at hb
      rw [hb] at h
      simp only [scrubList, List.map_cons, List.cons.injEq, true_and]
      exact ih h

/-- Scrubbing commutes with keyed lookup. -/
theorem lookup_scrubList (bs : List AccountYearBalance) (yid aid : Nat) :
    lookupBalance (scrubList bs) yid aid = (lookupBalance bs yid aid).map scrub := by
  unfold lookupBalance scrubList
  rw [List.find?_map]
  rfl

/-- Scrub-equal tables agree on the four value fields of every lookup. -/
theorem lookup_fourF_of_scrub_eq (bs bs' : List AccountYearBalance)
    (h : scrubList bs = scrubList bs') (yid aid : Nat) :
    (lookupBalance bs yid aid).map fourF = (lookupBalance bs' yid aid).map fourF := by
  have h1 := lookup_scrubList bs yid aid
  have h2 := lookup_scrubList bs' yid aid
  rw [h] at h1
  rw [h2] at h1
  have : ∀ o : Option AccountYearBalance,
      (o.map scrub).map fourF = o.map fourF := by
    intro o; cases o <;> rfl
  calc (lookupBalance bs yid aid).map fourF
      = ((lookupBalance bs yid aid).map scrub).map fourF := (this _).symm
    _ = ((lookupBalance bs' yid aid).map scrub).map fourF := by
        rw [← lookup_scrubList, ← lookup_scrubList, h]
    _ = (lookupBalance bs' yid aid).map fourF := this _

/-- The opening-balance lookup agrees between scrub-equal tables. -/
theorem get_opening_of_scrub_eq (bs bs' : List AccountYearBalance)
    (h : scrubList bs = scrubList bs') (y : FinancialYear) (a : MoneyAccount)
    (ys : List FinancialYear) :
    get_opening_balance bs y a ys = get_opening_balance bs' y a ys := by
  unfold get_opening_balance
  rcases findPreviousYear y.id ys with _ | prev
  · rfl
  · show (match lookupBalance bs prev.id a.id with
      | some prev_balance => prev_balance.closing_balance
      | none => a.opening_balance) =
      (match lookupBalance bs' prev.id a.id with
      | some prev_balance => prev_balance.closing_balance
      | none => a.opening_balance)
    have h4 := lookup_fourF_of_scrub_eq bs bs' h prev.id a.id
    rcases h1 : lookupBalance bs prev.id a.id with _ | b1 <;>
      rcases h2 : lookupBalance bs' prev.id a.id with _ | b2 <;>
        rw [h1, h2] at h4
    · simp at h4
    · simp at h4
    · show b1.closing_balance = b2.closing_balance
      simp only [Option.map_some'] at h4
      have h5 := Option.some.inj h4
      simp only [fourF, Prod.mk.injEq] at h5
      exact h5.2.1

/-- The opening-balance lookup only consults keys of other years, so it is
stable under tables that agree there. -/
theorem get_opening_of_lookup_agree (bs1 bs0 : List AccountYearBalance)
    (y : FinancialYear) (a : MoneyAccount) (ys : List FinancialYear)
    (hpne : ∀ p, findPreviousYear y.id ys = some p → p.id ≠ y.id)
    (hag : ∀ yid' aid', yid' ≠ y.id →
      lookupBalance bs1 yid' aid' = lookupBalance bs0 yid' aid') :
    get_opening_balance bs1 y a ys = get_opening_balance bs0 y a ys := by
  unfold get_opening_balance
  rcases hf : findPreviousYear y.id ys with _ | prev
  · rfl
  · show (match lookupBalance bs1 prev.id a.id with
      | some prev_balance => prev_balance.closing_balance
      | none => a.opening_balance) =
      (match lookupBalance bs0 prev.id a.id with
      | some prev_balance => prev_balance.closing_balance
      | none => a.opening_balance)
    rw [hag prev.id a.id (hpne prev hf)]

/-- The previous-year scan finds nothing when the sought id is absent. -/
theorem findPreviousYear_not_mem (cid : Nat) :
    ∀ l : List FinancialYear, cid ∉ l.map (·.id) →
      findPreviousYear cid l = none := by
  intro l
  induction l with
  | nil => intro _; rfl
  | cons a rest ih =>
    intro h
    cases rest with
    | nil => rfl
    | cons b rest2 =>
      show (if b.id == cid then some a else findPreviousYear cid (b :: rest2)) = none
      have hb : (b.id == cid) = false := by
        have hne : b.id ≠ cid := by
          intro he
          exact h (by
            rw [← he]
            exact List.mem_cons_of_mem _ (List.mem_cons_self _ _))
        simp [hne]
      rw [hb]
      simp only [Bool.false_eq_true, if_false]
      apply ih
      intro hmem
      exact h (List.mem_cons_of_mem _ hmem)

/-- In a duplicate-free chain, the sought id never occurs in the part
before its own position. -/
theorem yid_not_mem_front (front rest : List FinancialYear) (y : FinancialYear)
    (h : ((front ++ y :: rest).map (·.id)).Nodup) :
    y.id ∉ front.map (·.id) := by
  rw [List.map_append] at h
  have hdisj := List.disjoint_of_nodup_append h
  intro hmem
  exact hdisj hmem (by simp)

/-- In a duplicate-free chain split as `front ++ y :: rest`, the
previous-year scan for `y` returns the last element of `front`. -/
theorem findPreviousYear_append (y : FinancialYear) (rest : List FinancialYear) :
    ∀ front : List FinancialYear, ((front ++ y :: rest).map (·.id)).Nodup →
      findPreviousYear y.id (front ++ y :: rest) = front.getLast? := by
  intro front
  induction front with
  | nil =>
    intro h
    cases rest with
    | nil => rfl
    | cons b rest2 =>
      show (if b.id == y.id then some y else findPreviousYear y.id (b :: rest2)) = none
      have h2 : (y.id :: (b :: rest2).map (·.id)).Nodup := h
      have hynotin : y.id ∉ (b :: rest2).map (·.id) := (List.nodup_cons.mp h2).1
      have hb : (b.id == y.id) = false := by
        have hne : b.id ≠ y.id := by
          intro he
          exact hynotin (by rw [← he]; exact List.mem_cons_self _ _)
        simp [hne]
      rw [hb]
      simp only [Bool.false_eq_true, if_false]
      exact findPreviousYear_not_mem y.id (b :: rest2) hynotin
  | cons f front' ih =>
    intro h
    cases front' with
    | nil =>
      show (if y.id == y.id then some f else _) = some f
      simp
    | cons g front'' =>
      have hynot : y.id ∉ ((f :: g :: front'').map (·.id)) :=
        yid_not_mem_front (f :: g :: front'') rest y h
      have hg : (g.id == y.id) = false := by
        have hne : g.id ≠ y.id := by
          intro he
          exact hynot (by
            rw [← he]
            exact List.mem_cons_of_mem _ (List.mem_cons_self _ _))
        simp [hne]
      show (if g.id == y.id then some f
        else findPreviousYear y.id (g :: (front'' ++ y :: rest))) =
          (f :: g :: front'').getLast?
      rw [hg]
      simp only [Bool.false_eq_true, if_false]
      have h2 : (f.id :: ((g :: front'') ++ y :: rest).map (·.id)).Nodup := h
      have htail : (((g :: front'') ++ y :: rest).map (·.id)).Nodup :=
        (List.nodup_cons.mp h2).2
      rw [List.getLast?_cons_cons]
      exact ih htail

/-- The inner (per-account) cascade loop: other-year lookups are untouched,
untouched accounts keep their row, and every processed account's row holds
exactly the freshly computed values (openings evaluated against the state at
the start of the loop, which is sound because the opening lookup only reads
other years' rows). -/
theorem innerFold_main (txns : List Transaction) (tenant : Nat)
    (ysAll : List FinancialYear) (y : FinancialYear) (now : Nat)
    (hpne : ∀ p, findPreviousYear y.id ysAll = some p → p.id ≠ y.id) :
    ∀ (as : List MoneyAccount) (bs0 : List AccountYearBalance),
      (as.map (·.id)).Nodup →
      (∀ yid' aid', yid' ≠ y.id →
        lookupBalance (as.foldl
          (fun bs a => processYearAccount txns tenant ysAll y a now bs) bs0)
          yid' aid' = lookupBalance bs0 yid' aid') ∧
      (∀ aid', (∀ a ∈ as, a.id ≠ aid') →
        lookupBalance (as.foldl
          (fun bs a => processYearAccount txns tenant ysAll y a now bs) bs0)
          y.id aid' = lookupBalance bs0 y.id aid') ∧
      (∀ a ∈ as,
        (lookupBalance (as.foldl
          (fun bs a => processYearAccount txns tenant ysAll y a now bs) bs0)
          y.id a.id).map fourF =
          some (get_opening_balance bs0 y a ysAll,
            get_opening_balance bs0 y a ysAll +
              (calculate_transaction_sums txns y.id a.id).1 -
              (calculate_transaction_sums txns y.id a.id).2.1,
            (calculate_transaction_sums txns y.id a.id).1,
            (calculate_transaction_sums txns y.id a.id).2.1,
            (calculate_transaction_sums txns y.id a.id).2.2)) := by
  intro as
  induction as with
  | nil =>
    intro bs0 _
    exact ⟨fun _ _ _ => rfl, fun _ _ => rfl,
      fun a ha => absurd ha (List.not_mem_nil a)⟩
  | cons a rest ih =>
    intro bs0 hnd
    have hnd2 : (a.id :: rest.map (·.id)).Nodup := hnd
    have hnd' : (rest.map (·.id)).Nodup := (List.nodup_cons.mp hnd2).2
    have hanotin : a.id ∉ rest.map (·.id) := (List.nodup_cons.mp hnd2).1
    obtain ⟨ih1, ih2, ih3⟩ :=
      ih (processYearAccount txns tenant ysAll y a now bs0) hnd'
    have hw_other : ∀ yid' aid', yid' ≠ y.id →
        lookupBalance (processYearAccount txns tenant ysAll y a now bs0) yid' aid' =
          lookupBalance bs0 yid' aid' := by
      intro yid' aid' hne
      exact lookup_write_other tenant y a.id _ _ _ _ _ now yid' aid'
        (Or.inl hne) bs0
    refine ⟨?_, ?_, ?_⟩
    · intro yid' aid' hne
      rw [List.foldl_cons, ih1 yid' aid' hne]
      exact hw_other yid' aid' hne
    · intro aid' hall
      rw [List.foldl_cons,
        ih2 aid' (fun a' ha' => hall a' (List.mem_cons_of_mem a ha'))]
      exact lookup_write_other tenant y a.id _ _ _ _ _ now y.id aid'
        (Or.inr (Ne.symm (hall a (List.mem_cons_self a rest)))) bs0
    · intro a' ha'
      rcases List.mem_cons.mp ha' with h | h
      · subst h
        rw [List.foldl_cons,
          ih2 a'.id (fun a'' ha'' he =>
            hanotin (he ▸ List.mem_map_of_mem (·.id) ha''))]
        exact lookup_write_self tenant y a'.id _ _ _ _ _ now bs0
      · have hthis := ih3 a' h
        rw [get_opening_of_lookup_agree
          (processYearAccount txns tenant ysAll y a now bs0) bs0 y a' ysAll
          hpne hw_other] at hthis
        rw [List.foldl_cons]
        exact hthis

/-- The cascade loops realize the pure chain specification: after the run,
for every processed account and every chain row, the stored balance row
holds exactly the specified four values.  Generalized over the processed
prefix `front`, the per-account carried prior `prior`, and the current
table `bs`. -/
theorem processChain_main (txns : List Transaction) (tenant now : Nat)
    (ysAll : List FinancialYear) (as : List MoneyAccount)
    (hys : (ysAll.map (·.id)).Nodup) (has : (as.map (·.id)).Nodup) :
    ∀ (pending front : List FinancialYear) (prior : MoneyAccount → Money)
      (bs : List AccountYearBalance),
      ysAll = front ++ pending →
      (∀ a, prior a = chainClose txns a front a.opening_balance) →
      (∀ a ∈ as, ∀ r ∈ chainRows txns a front a.opening_balance,
        (lookupBalance bs r.yid a.id).map fourF =
          some (r.opening, r.closing, r.income, r.expense, r.cnt)) →
      (∀ a ∈ as, match front.getLast? with
        | none => prior a = a.opening_balance
        | some yl => (lookupBalance bs yl.id a.id).map (·.closing_balance) =
            some (prior a)) →
      (∀ a ∈ as, ∀ r ∈ chainRows txns a ysAll a.opening_balance,
        (lookupBalance (pending.foldl
          (fun bs y => as.foldl
            (fun bs a => processYearAccount txns tenant ysAll y a now bs) bs) bs)
          r.yid a.id).map fourF =
          some (r.opening, r.closing, r.income, r.expense, r.cnt)) := by
  intro pending
  induction pending with
  | nil =>
    intro front prior bs hsplit hprior hdone hprev
    rw [List.append_nil] at hsplit
    rw [List.foldl_nil]
    rw [hsplit]
    exact hdone
  | cons y rest ih =>
    intro front prior bs hsplit hprior hdone hprev
    rw [List.foldl_cons]
    have hnodsplit : ((front ++ y :: rest).map (·.id)).Nodup := by
      rw [← hsplit]; exact hys
    have hfp : findPreviousYear y.id ysAll = front.getLast? := by
      rw [hsplit]
      exact findPreviousYear_append y rest front hnodsplit
    have hynotfront : y.id ∉ front.map (·.id) :=
      yid_not_mem_front front rest y hnodsplit
    have hpne : ∀ p, findPreviousYear y.id ysAll = some p → p.id ≠ y.id := by
      intro p hp hid
      rw [hfp] at hp
      have hpfront : p ∈ front := List.mem_of_mem_getLast? hp
      exact hynotfront (hid ▸ List.mem_map_of_mem (·.id) hpfront)
    obtain ⟨if1, if2, if3⟩ := innerFold_main txns tenant ysAll y now hpne as bs has
    have hopen : ∀ a ∈ as, get_opening_balance bs y a ysAll = prior a := by
      intro a ha
      unfold get_opening_balance
      rw [hfp]
      have hp := hprev a ha
      rcases hl : front.getLast? with _ | yl
      · rw [hl] at hp
        have hp' : prior a = a.opening_balance := hp
        exact hp'.symm
      · rw [hl] at hp
        have hp' : (lookupBalance bs yl.id a.id).map (·.closing_balance) =
            some (prior a) := hp
        show (match lookupBalance bs yl.id a.id with
          | some prev_balance => prev_balance.closing_balance
          | none => a.opening_balance) = prior a
        rcases hlook : lookupBalance bs yl.id a.id with _ | pb
        · rw [hlook] at hp'
          exact absurd hp' (by simp)
        · rw [hlook] at hp'
          simp only [Option.map_some'] at hp'
          exact Option.some.inj hp'
    apply ih (front ++ [y])
      (fun a => prior a + (calculate_transaction_sums txns y.id a.id).1 -
        (calculate_transaction_sums txns y.id a.id).2.1)
      (as.foldl (fun bs a => processYearAccount txns tenant ysAll y a now bs) bs)
    · rw [hsplit, List.append_assoc]
      rfl
    · intro a
      rw [chainClose_append, ← hprior a]
      rfl
    · intro a ha r hr
      rw [chainRows_append] at hr
      rcases List.mem_append.mp hr with h | h
      · have hry : r.yid ≠ y.id := by
          intro he
          apply hynotfront
          rw [← he]
          have := List.mem_map_of_mem (·.yid) h
          rw [chainRows_yids] at this
          exact this
        rw [if1 r.yid a.id hry]
        exact hdone a ha r h
      · rw [← hprior a] at h
        have hsingle : chainRows txns a [y] (prior a) =
            [⟨y.id, prior a,
              prior a + (calculate_transaction_sums txns y.id a.id).1 -
                (calculate_transaction_sums txns y.id a.id).2.1,
              (calculate_transaction_sums txns y.id a.id).1,
              (calculate_transaction_sums txns y.id a.id).2.1,
              (calculate_transaction_sums txns y.id a.id).2.2⟩] := rfl
        rw [hsingle] at h
        have hr' := List.mem_singleton.mp h
        subst hr'
        have hthis := if3 a ha
        rw [hopen a ha] at hthis
        exact hthis
    · intro a ha
      simp only [List.getLast?_concat]
      have hthis := if3 a ha
      rw [hopen a ha] at hthis
      rcases hl : lookupBalance (as.foldl
          (fun bs a => processYearAccount txns tenant ysAll y a now bs) bs)
          y.id a.id with _ | bX
      · rw [hl] at hthis
        exact absurd hthis (by simp)
      · rw [hl] at hthis
        simp only [Option.map_some'] at hthis ⊢
        have h5 := Option.some.inj hthis
        simp only [fourF, Prod.mk.injEq] at h5
        rw [h5.2.1]

/-- A second pass of the inner cascade loop over a table that is scrub-equal
to a fixpoint table recomputes exactly the stored values, so it changes
nothing but the bookkeeping. -/
theorem innerFold_sim (txns : List Transaction) (tenant : Nat)
    (ysAll : List FinancialYear) (y : FinancialYear) (now : Nat)
    (front : List FinancialYear) (prior : MoneyAccount → Money)
    (bs1 : List AccountYearBalance)
    (hfp : findPreviousYear y.id ysAll = front.getLast?) :
    ∀ (as : List MoneyAccount) (bs : List AccountYearBalance),
      scrubList bs = scrubList bs1 →
      (∀ a ∈ as, match front.getLast? with
        | none => prior a = a.opening_balance
        | some yl => (lookupBalance bs1 yl.id a.id).map (·.closing_balance) =
            some (prior a)) →
      (∀ a ∈ as, (lookupBalance bs1 y.id a.id).map fourF =
          some (prior a,
            prior a + (calculate_transaction_sums txns y.id a.id).1 -
              (calculate_transaction_sums txns y.id a.id).2.1,
            (calculate_transaction_sums txns y.id a.id).1,
            (calculate_transaction_sums txns y.id a.id).2.1,
            (calculate_transaction_sums txns y.id a.id).2.2)) →
      scrubList (as.foldl
        (fun bs a => processYearAccount txns tenant ysAll y a now bs) bs) =
        scrubList bs1 := by
  intro as
  induction as with
  | nil => intro bs hscrub _ _; exact hscrub
  | cons a rest ih =>
    intro bs hscrub hprev hrow
    rw [List.foldl_cons]
    have hoa : get_opening_balance bs y a ysAll = prior a := by
      rw [get_opening_of_scrub_eq bs bs1 hscrub y a ysAll]
      unfold get_opening_balance
      rw [hfp]
      have hp := hprev a (List.mem_cons_self a rest)
      rcases hl : front.getLast? with _ | yl
      · rw [hl] at hp
        have hp' : prior a = a.opening_balance := hp
        exact hp'.symm
      · rw [hl] at hp
        have hp' : (lookupBalance bs1 yl.id a.id).map (·.closing_balance) =
            some (prior a) := hp
        show (match lookupBalance bs1 yl.id a.id with
          | some prev_balance => prev_balance.closing_balance
          | none => a.opening_balance) = prior a
        rcases hlook : lookupBalance bs1 yl.id a.id with _ | pb
        · rw [hlook] at hp'
          exact absurd hp' (by simp)
        · rw [hlook] at hp'
          simp only [Option.map_some'] at hp'
          exact Option.some.inj hp'
    have hstored : (lookupBalance bs y.id a.id).map fourF =
        some (get_opening_balance bs y a ysAll,
          get_opening_balance bs y a ysAll +
            (calculate_transaction_sums txns y.id a.id).1 -
            (calculate_transaction_sums txns y.id a.id).2.1,
          (calculate_transaction_sums txns y.id a.id).1,
          (calculate_transaction_sums txns y.id a.id).2.1,
          (calculate_transaction_sums txns y.id a.id).2.2) := by
      rw [lookup_fourF_of_scrub_eq bs bs1 hscrub y.id a.id, hoa]
      exact hrow a (List.mem_cons_self a rest)
    have hnoop : scrubList (processYearAccount txns tenant ysAll y a now bs) =
        scrubList bs :=
      write_noop_scrub tenant y a.id _ _ _ _ _ now bs hstored
    exact ih (processYearAccount txns tenant ysAll y a now bs)
      (hnoop.trans hscrub)
      (fun a' ha' => hprev a' (List.mem_cons_of_mem a ha'))
      (fun a' ha' => hrow a' (List.mem_cons_of_mem a ha'))

/-- A second pass of the full cascade loops over a scrub-equal table leaves
the table scrub-equal to the fixpoint: only bookkeeping changes. -/
theorem processChain_sim (txns : List Transaction) (tenant now : Nat)
    (ysAll : List FinancialYear) (as : List MoneyAccount)
    (hys : (ysAll.map (·.id)).Nodup)
    (bs1 : List AccountYearBalance)
    (hfix : ∀ a ∈ as, ∀ r ∈ chainRows txns a ysAll a.opening_balance,
      (lookupBalance bs1 r.yid a.id).map fourF =
        some (r.opening, r.closing, r.income, r.expense, r.cnt)) :
    ∀ (pending front : List FinancialYear) (prior : MoneyAccount → Money)
      (bs : List AccountYearBalance),
      ysAll = front ++ pending →
      (∀ a, prior a = chainClose txns a front a.opening_balance) →
      scrubList bs = scrubList bs1 →
      (∀ a ∈ as, match front.getLast? with
        | none => prior a = a.opening_balance
        | some yl => (lookupBalance bs1 yl.id a.id).map (·.closing_balance) =
            some (prior a)) →
      scrubList (pending.foldl
        (fun bs y => as.foldl
          (fun bs a => processYearAccount txns tenant ysAll y a now bs) bs) bs) =
        scrubList bs1 := by
  intro pending
  induction pending with
  | nil =>
    intro front prior bs _ _ hscrub _
    rw [List.foldl_nil]
    exact hscrub
  | cons y rest ih =>
    intro front prior bs hsplit hprior hscrub hprev
    rw [List.foldl_cons]
    have hnodsplit : ((front ++ y :: rest).map (·.id)).Nodup := by
      rw [← hsplit]; exact hys
    have hfp : findPreviousYear y.id ysAll = front.getLast? := by
      rw [hsplit]
      exact findPreviousYear_append y rest front hnodsplit
    have hrow : ∀ a ∈ as, (lookupBalance bs1 y.id a.id).map fourF =
        some (prior a,
          prior a + (calculate_transaction_sums txns y.id a.id).1 -
            (calculate_transaction_sums txns y.id a.id).2.1,
          (calculate_transaction_sums txns y.id a.id).1,
          (calculate_transaction_sums txns y.id a.id).2.1,
          (calculate_transaction_sums txns y.id a.id).2.2) := by
      intro a ha
      have hmem : (⟨y.id, prior a,
          prior a + (calculate_transaction_sums txns y.id a.id).1 -
            (calculate_transaction_sums txns y.id a.id).2.1,
          (calculate_transaction_sums txns y.id a.id).1,
          (calculate_transaction_sums txns y.id a.id).2.1,
          (calculate_transaction_sums txns y.id a.id).2.2⟩ : ChainRow) ∈
          chainRows txns a ysAll a.opening_balance := by
        rw [hsplit, chainRows_append, ← hprior a]
        apply List.mem_append_right
        exact List.mem_cons_self _ _
      exact hfix a ha _ hmem
    have hinner := innerFold_sim txns tenant ysAll y now front prior bs1 hfp as
      bs hscrub hprev hrow
    apply ih (front ++ [y])
      (fun a => prior a + (calculate_transaction_sums txns y.id a.id).1 -
        (calculate_transaction_sums txns y.id a.id).2.1)
      (as.foldl (fun bs a => processYearAccount txns tenant ysAll y a now bs) bs)
    · rw [hsplit, List.append_assoc]
      rfl
    · intro a
      rw [chainClose_append, ← hprior a]
      rfl
    · exact hinner
    · intro a ha
      simp only [List.getLast?_concat]
      have hthis := hrow a ha
      rcases hl : lookupBalance bs1 y.id a.id with _ | bX
      · rw [hl] at hthis
        exact absurd hthis (by simp)
      · rw [hl] at hthis
        simp only [Option.map_some'] at hthis ⊢
        have h5 := Option.some.inj hthis
        simp only [fourF, Prod.mk.injEq] at h5
        rw [h5.2.1]

/-- The cascade loops realize the pure chain specification, starting from
any balance table. -/
theorem processChain_correct (txns : List Transaction) (tenant now : Nat)
    (ysAll : List FinancialYear) (as : List MoneyAccount)
    (hys : (ysAll.map (·.id)).Nodup) (has : (as.map (·.id)).Nodup)
    (bs : List AccountYearBalance) :
    ∀ a ∈ as, ∀ r ∈ chainRows txns a ysAll a.opening_balance,
      (lookupBalance (processChain txns tenant ysAll as now bs) r.yid a.id).map
        fourF = some (r.opening, r.closing, r.income, r.expense, r.cnt) := by
  unfold processChain
  exact processChain_main txns tenant now ysAll as hys has ysAll []
    (fun a => a.opening_balance) bs rfl (fun a => rfl)
    (fun a _ r hr => absurd hr (List.not_mem_nil r))
    (fun a _ => rfl)

/-- The forward chain inherits duplicate-free year ids from the store. -/
theorem chainOf_nodup (db : DB) (tenant : Nat) (sy : FinancialYear)
    (h : (db.years.map (·.id)).Nodup) :
    ((chainOf db tenant sy).map (·.id)).Nodup := by
  unfold chainOf sortByStartDate
  have hperm := List.perm_insertionSort startLE
    (db.years.filter (fun y => y.tenant_id == tenant &&
      Date.ble sy.start_date y.start_date))
  have hperm2 := hperm.map (·.id)
  rw [List.Perm.nodup_iff hperm2]
  exact List.Nodup.sublist
    ((db.years.filter_sublist).map (·.id)) h

/-- The resolved account set inherits duplicate-free ids from the store. -/
theorem accountsFor_nodup (db : DB) (tenant : Nat) (ids : Option (List Nat))
    (h : (db.accounts.map (·.id)).Nodup) :
    ((accountsFor db tenant ids).map (·.id)).Nodup := by
  unfold accountsFor
  rcases ids with _ | l
  · exact List.Nodup.sublist ((db.accounts.filter_sublist).map (·.id)) h
  · rcases hl : l.isEmpty <;>
      simp only [hl, Bool.false_eq_true, if_false, if_true] <;>
      exact List.Nodup.sublist ((db.accounts.filter_sublist).map (·.id)) h

/-- Degenerate cascade: a missing starting year leaves the store
untouched. -/
theorem recalc_eq_of_not_found (db : DB) (tenant now sid : Nat)
    (ids : Option (List Nat)) (hy : getYear db tenant sid = none) :
    (recalculate_cascade db tenant now sid ids).1 = db := by
  unfold recalculate_cascade
  rw [hy]

/-- Degenerate cascade: an empty chain leaves the store untouched. -/
theorem recalc_eq_of_empty (db : DB) (tenant now sid : Nat)
    (ids : Option (List Nat)) (sy : FinancialYear)
    (hy : getYear db tenant sid = some sy)
    (he : (chainOf db tenant sy).isEmpty = true) :
    (recalculate_cascade db tenant now sid ids).1 = db := by
  unfold recalculate_cascade
  rw [hy]
  simp only [he, if_true]

/-- In the main branch, the cascade's balance table is exactly the chain
fold. -/
theorem recalc_balances_shape (db : DB) (tenant now sid : Nat)
    (ids : Option (List Nat)) (sy : FinancialYear)
    (hy : getYear db tenant sid = some sy)
    (he : (chainOf db tenant sy).isEmpty = false) :
    (recalculate_cascade db tenant now sid ids).1.balances =
      processChain db.transactions tenant (chainOf db tenant sy)
        (accountsFor db tenant ids) now db.balances := by
  unfold recalculate_cascade
  rw [hy]
  simp only [he, Bool.false_eq_true, if_false]

/-- In the main branch, the cascade's account table is the refreshed map. -/
theorem recalc_accounts_shape (db : DB) (tenant now sid : Nat)
    (ids : Option (List Nat)) (sy : FinancialYear)
    (hy : getYear db tenant sid = some sy)
    (he : (chainOf db tenant sy).isEmpty = false) :
    (recalculate_cascade db tenant now sid ids).1.accounts =
      db.accounts.map (refreshCurrentBalance
        (processChain db.transactions tenant (chainOf db tenant sy)
          (accountsFor db tenant ids) now db.balances)
        (chainOf db tenant sy) (accountsFor db tenant ids)) := by
  unfold recalculate_cascade
  rw [hy]
  simp only [he, Bool.false_eq_true, if_false]

/-- Refreshing a live balance never changes the account's id, tenant or
base opening balance. -/
theorem refreshCurrentBalance_fields (bs : List AccountYearBalance)
    (years : List FinancialYear) (accounts : List MoneyAccount)
    (a : MoneyAccount) :
    (refreshCurrentBalance bs years accounts a).id = a.id ∧
    (refreshCurrentBalance bs years accounts a).tenant_id = a.tenant_id ∧
    (refreshCurrentBalance bs years accounts a).opening_balance =
      a.opening_balance := by
  unfold refreshCurrentBalance
  refine ⟨?_, ?_, ?_⟩
  all_goals
    split
    · split
      · split <;> rfl
      · rfl
    · rfl

/-- `getYear` reads only the years table. -/
theorem getYear_congr (dbA dbB : DB) (h : dbA.years = dbB.years)
    (tenant sid : Nat) : getYear dbA tenant sid = getYear dbB tenant sid := by
  unfold getYear
  rw [h]

/-- `chainOf` reads only the years table. -/
theorem chainOf_congr (dbA dbB : DB) (h : dbA.years = dbB.years)
    (tenant : Nat) (sy : FinancialYear) :
    chainOf dbA tenant sy = chainOf dbB tenant sy := by
  unfold chainOf
  rw [h]

/-- The per-account cascade step reads only the account's id and base
opening balance. -/
theorem processYearAccount_congr (txns : List Transaction) (tenant : Nat)
    (ysAll : List FinancialYear) (y : FinancialYear) (now : Nat)
    (aP aQ : MoneyAccount) (hid : aP.id = aQ.id)
    (hop : aP.opening_balance = aQ.opening_balance)
    (bs : List AccountYearBalance) :
    processYearAccount txns tenant ysAll y aP now bs =
      processYearAccount txns tenant ysAll y aQ now bs := by
  simp only [processYearAccount, get_opening_balance, hid, hop]

/-- The inner cascade loop depends on the account list only through ids and
base opening balances. -/
theorem innerFold_congr_accounts (txns : List Transaction) (tenant : Nat)
    (ysAll : List FinancialYear) (y : FinancialYear) (now : Nat) :
    ∀ (asP asQ : List MoneyAccount),
      asP.map (fun a => (a.id, a.opening_balance)) =
        asQ.map (fun a => (a.id, a.opening_balance)) →
      ∀ bs, asP.foldl
          (fun bs a => processYearAccount txns tenant ysAll y a now bs) bs =
        asQ.foldl
          (fun bs a => processYearAccount txns tenant ysAll y a now bs) bs := by
  intro asP
  induction asP with
  | nil =>
    intro asQ h bs
    cases asQ with
    | nil => rfl
    | cons b restQ => exact absurd h (by simp)
  | cons a rest ih =>
    intro asQ h bs
    cases asQ with
    | nil => exact absurd h (by simp)
    | cons b restQ =>
      simp only [List.map_cons, List.cons.injEq, Prod.mk.injEq] at h
      obtain ⟨⟨hid, hop⟩, h2⟩ := h
      rw [List.foldl_cons, List.foldl_cons,
        processYearAccount_congr txns tenant ysAll y now a b hid hop bs]
      exact ih restQ h2 _

/-- The cascade loops depend on the account list only through ids and base
opening balances. -/
theorem processChain_congr_accounts (txns : List Transaction) (tenant now : Nat)
    (ysAll : List FinancialYear) (asP asQ : List MoneyAccount)
    (h : asP.map (fun a => (a.id, a.opening_balance)) =
      asQ.map (fun a => (a.id, a.opening_balance))) :
    ∀ bs, processChain txns tenant ysAll asP now bs =
      processChain txns tenant ysAll asQ now bs := by
  unfold processChain
  suffices hs : ∀ (pending : List FinancialYear) (bs : List AccountYearBalance),
      pending.foldl (fun bs y => asP.foldl
        (fun bs a => processYearAccount txns tenant ysAll y a now bs) bs) bs =
      pending.foldl (fun bs y => asQ.foldl
        (fun bs a => processYearAccount txns tenant ysAll y a now bs) bs) bs by
    intro bs
    exact hs ysAll bs
  intro pending
  induction pending with
  | nil => intro bs; rfl
  | cons y rest ih =>
    intro bs
    rw [List.foldl_cons, List.foldl_cons,
      innerFold_congr_accounts txns tenant ysAll y now asP asQ h bs]
    exact ih _

/-- Filtering and projecting commute with a row transformation that
preserves the projected key and the filter predicate. -/
theorem map_filter_map_invariant {α β : Type} (g : α → α) (key : α → β)
    (p : α → Bool) (hkey : ∀ a, key (g a) = key a)
    (hp : ∀ a, p (g a) = p a) :
    ∀ l : List α, ((l.map g).filter p).map key = (l.filter p).map key := by
  intro l
  induction l with
  | nil => rfl
  | cons x xs ih =>
    rw [List.map_cons]
    rcases hx : p x
    · rw [List.filter_cons_of_neg (by rw [hp x, hx]; exact Bool.false_ne_true),
        List.filter_cons_of_neg (by rw [hx]; exact Bool.false_ne_true)]
      exact ih
    · rw [List.filter_cons_of_pos (by rw [hp x]; exact hx),
        List.filter_cons_of_pos hx, List.map_cons, List.map_cons, hkey x, ih]

/-- The resolved account set's ids and base opening balances are stable
under a row transformation that preserves id, tenant and base opening
balance. -/
theorem accountsFor_map (dbA dbB : DB) (g : MoneyAccount → MoneyAccount)
    (hacc : dbA.accounts = dbB.accounts.map g)
    (hg : ∀ a, (g a).id = a.id ∧ (g a).tenant_id = a.tenant_id ∧
      (g a).opening_balance = a.opening_balance)
    (tenant : Nat) (ids : Option (List Nat)) :
    (accountsFor dbA tenant ids).map (fun a => (a.id, a.opening_balance)) =
      (accountsFor dbB tenant ids).map (fun a => (a.id, a.opening_balance)) := by
  have hkey : ∀ a : MoneyAccount,
      ((g a).id, (g a).opening_balance) = (a.id, a.opening_balance) := by
    intro a
    rw [(hg a).1, (hg a).2.2]
  unfold accountsFor
  rcases ids with _ | l
  · rw [hacc]
    exact map_filter_map_invariant g _ _ hkey
      (fun a => by
        show ((g a).tenant_id == tenant) = (a.tenant_id == tenant)
        rw [(hg a).2.1]) dbB.accounts
  · rcases hl : l.isEmpty <;>
      simp only [hl, Bool.false_eq_true, if_false, if_true] <;> rw [hacc]
    · exact map_filter_map_invariant g _ _ hkey
        (fun a => by
          show ((g a).tenant_id == tenant && l.contains (g a).id) =
            (a.tenant_id == tenant && l.contains a.id)
          rw [(hg a).2.1, (hg a).1]) dbB.accounts
    · exact map_filter_map_invariant g _ _ hkey
        (fun a => by
          show ((g a).tenant_id == tenant) = (a.tenant_id == tenant)
          rw [(hg a).2.1]) dbB.accounts

/-- A table realizing the chain specification is a fixpoint of the cascade
loops, up to bookkeeping. -/
theorem processChain_fixpoint (txns : List Transaction) (tenant now : Nat)
    (ysAll : List FinancialYear) (as : List MoneyAccount)
    (hys : (ysAll.map (·.id)).Nodup) (bs1 : List AccountYearBalance)
    (hfix : ∀ a ∈ as, ∀ r ∈ chainRows txns a ysAll a.opening_balance,
      (lookupBalance bs1 r.yid a.id).map fourF =
        some (r.opening, r.closing, r.income, r.expense, r.cnt)) :
    scrubList (processChain txns tenant ysAll as now bs1) = scrubList bs1 := by
  unfold processChain
  exact processChain_sim txns tenant now ysAll as hys bs1 hfix ysAll []
    (fun a => a.opening_balance) bs1 rfl (fun a => rfl) rfl (fun a _ => rfl)

/-- C4: running the cascade twice with the same starting period and account
set, with no intervening changes, yields balance rows identical in every
value field — opening, closing, income, expense, count, finality — after
the second run as after the first; only the recalculation counters and
timestamps (scrubbed here) differ.  Hypotheses: year ids and account ids
are duplicate-free (primary-key facts of the schema). -/
theorem C4_recalculate_idempotent (db : DB) (tenant now1 now2 sid : Nat)
    (ids : Option (List Nat))
    (h1 : (db.years.map (·.id)).Nodup)
    (h2 : (db.accounts.map (·.id)).Nodup) :
    scrubList ((recalculate_cascade (recalculate_cascade db tenant now1 sid
        ids).1 tenant now2 sid ids).1.balances) =
      scrubList ((recalculate_cascade db tenant now1 sid ids).1.balances) := by
  rcases hy : getYear db tenant sid with _ | sy
  · rw [recalc_eq_of_not_found db tenant now1 sid ids hy]
    rw [recalc_eq_of_not_found db tenant now2 sid ids hy]
  · set db1 := (recalculate_cascade db tenant now1 sid ids).1 with hdb1
    have hyears1 : db1.years = db.years :=
      recalc_preserves_years db tenant now1 sid ids
    have htx1 : db1.transactions = db.transactions :=
      recalc_preserves_transactions db tenant now1 sid ids
    have hy2 : getYear db1 tenant sid = some sy := by
      rw [getYear_congr db1 db hyears1 tenant sid]
      exact hy
    have hchain2 : chainOf db1 tenant sy = chainOf db tenant sy :=
      chainOf_congr db1 db hyears1 tenant sy
    rcases he : (chainOf db tenant sy).isEmpty
    · have hb1 : db1.balances = processChain db.transactions tenant
          (chainOf db tenant sy) (accountsFor db tenant ids) now1 db.balances := by
        rw [hdb1]
        exact recalc_balances_shape db tenant now1 sid ids sy hy he
      have he2 : (chainOf db1 tenant sy).isEmpty = false := by
        rw [hchain2]
        exact he
      have hb2 := recalc_balances_shape db1 tenant now2 sid ids sy hy2 he2
      rw [hb2, hchain2, htx1]
      have hacc : db1.accounts = db.accounts.map (refreshCurrentBalance
          (processChain db.transactions tenant (chainOf db tenant sy)
            (accountsFor db tenant ids) now1 db.balances)
          (chainOf db tenant sy) (accountsFor db tenant ids)) := by
        rw [hdb1]
        exact recalc_accounts_shape db tenant now1 sid ids sy hy he
      have hmap := accountsFor_map db1 db _ hacc
        (fun a => refreshCurrentBalance_fields _ _ _ a) tenant ids
      rw [processChain_congr_accounts db.transactions tenant now2
        (chainOf db tenant sy) (accountsFor db1 tenant ids)
        (accountsFor db tenant ids) hmap db1.balances]
      apply processChain_fixpoint db.transactions tenant now2
        (chainOf db tenant sy) (accountsFor db tenant ids)
        (chainOf_nodup db tenant sy h1) db1.balances
      rw [hb1]
      exact processChain_correct db.transactions tenant now1
        (chainOf db tenant sy) (accountsFor db tenant ids)
        (chainOf_nodup db tenant sy h1) (accountsFor_nodup db tenant ids h2)
        db.balances
    · have hq1 : db1 = db := by
        rw [hdb1]
        exact recalc_eq_of_empty db tenant now1 sid ids sy hy he
      rw [hq1]
      rw [recalc_eq_of_empty db tenant now2 sid ids sy hy he]

/-- Witness for C4 at the concrete two-year store. -/
theorem C4_recalculate_idempotent_witness :
    scrubList ((recalculate_cascade (recalculate_cascade dbTwoYears 1 7 2
        none).1 1 8 2 none).1.balances) =
      scrubList ((recalculate_cascade dbTwoYears 1 7 2 none).1.balances) :=
  C4_recalculate_idempotent dbTwoYears 1 7 8 2 none (by decide) (by decide)

/-- C7: every balance row produced or updated by the cascade satisfies
`closing_balance = opening_balance + total_income - total_expense` exactly
(in exact fixed-point arithmetic), and so does every row seeded for the
next period by the closing workflow. -/
theorem C7_closing_balance_arithmetic :
    (∀ (db : DB) (tenant now sid : Nat) (ids : Option (List Nat))
      (sy y : FinancialYear) (a : MoneyAccount),
      (db.years.map (·.id)).Nodup →
      (db.accounts.map (·.id)).Nodup →
      getYear db tenant sid = some sy →
      y ∈ chainOf db tenant sy →
      a ∈ accountsFor db tenant ids →
      ∃ b, lookupBalance (recalculate_cascade db tenant now sid
          ids).1.balances y.id a.id = some b ∧
        b.closing_balance = b.opening_balance + b.total_income -
          b.total_expense) ∧
    (∀ (db : DB) (tenant : Nat) (cy : FinancialYear) (snap : BalanceSnapshot)
      (b : AccountYearBalance),
      b ∈ (create_next_year_op db tenant cy snap).1.balances →
      b ∉ db.balances →
      b.closing_balance = b.opening_balance + b.total_income -
        b.total_expense) := by
  constructor
  · intro db tenant now sid ids sy y a h1 h2 hy hym ham
    have hne : (chainOf db tenant sy).isEmpty = false := by
      rcases hE : (chainOf db tenant sy).isEmpty
      · rfl
      · rw [List.isEmpty_iff] at hE
        rw [hE] at hym
        cases hym
    rw [recalc_balances_shape db tenant now sid ids sy hy hne]
    have hid : y.id ∈ (chainOf db tenant sy).map (·.id) :=
      List.mem_map_of_mem _ hym
    rw [← chainRows_yids db.transactions a (chainOf db tenant sy)
      a.opening_balance] at hid
    obtain ⟨r, hr, hry⟩ := List.mem_map.mp hid
    have hlook := processChain_correct db.transactions tenant now
      (chainOf db tenant sy) (accountsFor db tenant ids)
      (chainOf_nodup db tenant sy h1) (accountsFor_nodup db tenant ids h2)
      db.balances a ham r hr
    rw [hry] at hlook
    rcases hL : lookupBalance (processChain db.transactions tenant
      (chainOf db tenant sy) (accountsFor db tenant ids) now db.balances)
      y.id a.id with _ | b
    · rw [hL] at hlook
      exact absurd hlook (by simp)
    · rw [hL] at hlook
      refine ⟨b, rfl, ?_⟩
      simp only [Option.map_some'] at hlook
      have h4 := Option.some.inj hlook
      simp only [fourF, Prod.mk.injEq] at h4
      obtain ⟨e1, e2, e3, e4, _⟩ := h4
      rw [e1, e2, e3, e4]
      exact chainRows_equation db.transactions a _ _ r hr
  · intro db tenant cy snap b hmem hnot
    have hmem' : b ∈ db.balances ++ snap.accounts.map
        (seedBalance tenant (nextYearRecord db tenant cy).id) := hmem
    rcases List.mem_append.mp hmem' with h | h
    · exact absurd h hnot
    · obtain ⟨e, _, hseed⟩ := List.mem_map.mp h
      rw [← hseed]
      simp [seedBalance]

/-- Witness for C7: the cascade-written row for (2025, cash) in
`dbTwoYears` and a freshly seeded next-year row both satisfy the
equation. -/
theorem C7_closing_balance_arithmetic_witness :
    (∃ b, lookupBalance (recalculate_cascade dbTwoYears 1 7 2
        none).1.balances yr2025open.id acctCash.id = some b ∧
      b.closing_balance = b.opening_balance + b.total_income -
        b.total_expense) ∧
    ((seedBalance 1 2 ⟨10, "Cash", 0, 100, 100, 0, 1⟩).closing_balance =
      (seedBalance 1 2 ⟨10, "Cash", 0, 100, 100, 0, 1⟩).opening_balance +
        (seedBalance 1 2 ⟨10, "Cash", 0, 100, 100, 0, 1⟩).total_income -
        (seedBalance 1 2 ⟨10, "Cash", 0, 100, 100, 0, 1⟩).total_expense) := by
  constructor
  · exact C7_closing_balance_arithmetic.1 dbTwoYears 1 7 2 none yr2025open
      yr2025open acctCash (by decide) (by decide) (by decide) (by decide)
      (by decide)
  · exact C7_closing_balance_arithmetic.2 dbOneOpenYear 1 yr2024open
      ⟨[⟨10, "Cash", 0, 100, 100, 0, 1⟩], 1⟩
      (seedBalance 1 2 ⟨10, "Cash", 0, 100, 100, 0, 1⟩)
      (by decide) (by decide)

end LedgerPro
